import Mathlib

/-!
Verification of the douzhi-chat response-capture and risk-mitigation engine.

The development shallowly embeds the TypeScript source:

* the per-provider captureResponse polling loops of
  src/providers/yuanbao.ts, src/providers/deepseek.ts and the doubao provider,
  modelled as pure functions over the finite list of snapshots the loop polls
  before the caller-supplied timeout elapses (the loop either breaks early on
  stability, or exhausts the list, which models reaching the timeout);
* the rate/risk guard of src/core/risk-guard.ts, with ISO-8601 timestamp
  strings modelled as their parsed epoch-millisecond values (Int), and the
  sha256 prompt fingerprint modelled as an opaque string compared for
  equality only;
* the runChat orchestrator of the chat command, modelled as a function of an
  environment fixing the outcome of each externally-effectful stage.

JavaScript strings are sequences of characters; String.prototype helpers used
by the source are re-defined below on Lean strings.
-/

/-- JS s.startsWith(pre). -/
def jsStartsWith (s pre : String) : Bool :=
  pre.data.isPrefixOf s.data

/-- JS s.slice(n) for a non-negative index: drop the first n characters. -/
def jsSliceFrom (s : String) (n : Nat) : String :=
  ⟨s.data.drop n⟩

/-- Scan of a character list for an occurrence of sub. -/
def listSearch (sub : List Char) : List Char → Bool
  | [] => sub.isEmpty
  | c :: rest => sub.isPrefixOf (c :: rest) || listSearch sub rest

/-- JS s.includes(sub). -/
def jsIncludes (s sub : String) : Bool :=
  listSearch sub.data s.data

/-- JS s.toLowerCase(), modelled with the ASCII case map (the source only
lowercases ASCII letters; the CJK pattern characters it compares against are
unaffected by case mapping). -/
def jsToLowerCase (s : String) : String :=
  ⟨s.data.map Char.toLower⟩

/-- The whitespace characters relevant to the JS \s class and String.trim as the
source uses them. -/
def isJsWhitespace (c : Char) : Bool :=
  c = ' ' || c = '\t' || c = '\n' || c = '\r' || c = ' '

/-- JS s.trim(): strip whitespace from both ends of a character list. -/
def jsTrimList (l : List Char) : List Char :=
  ((l.dropWhile (fun c => isJsWhitespace c)).reverse.dropWhile
    (fun c => isJsWhitespace c)).reverse

/-- Collapse every run of spaces and tabs to a single space:
the replace(/[ \t]+/g, ch-space) step. inRun records whether the previous
character belonged to a run already collapsed. -/
def collapseSpacesAux (inRun : Bool) : List Char → List Char
  | [] => []
  | c :: rest =>
    if c = ' ' || c = '\t' then
      (if inRun then [] else [' ']) ++ collapseSpacesAux true rest
    else
      c :: collapseSpacesAux false rest

/-- Collapse every run of three or more newlines to exactly two:
the replace of three-plus newlines with two. run counts the newlines already
kept from the current run (capped at 2). -/
def collapseNewlinesAux (run : Nat) : List Char → List Char
  | [] => []
  | c :: rest =>
    if c = '\n' then
      (if run < 2 then ['\n'] else []) ++ collapseNewlinesAux (run + 1) rest
    else
      c :: collapseNewlinesAux 0 rest

/-- normalizeText of the doubao provider (identical to normalizeBlockText of
yuanbao.ts): NBSP to space, strip CR, collapse space runs, collapse newline
runs of three or more, trim. -/
def normalizeText (text : String) : String :=
  let l := text.data.map (fun c => if c = ' ' then ' ' else c)
  let l := l.filter (fun c => c ≠ '\r')
  let l := collapseSpacesAux false l
  let l := collapseNewlinesAux 0 l
  ⟨jsTrimList l⟩

/-- ASCII digit, the JS regex \d class. -/
def isAsciiDigit (c : Char) : Bool :=
  '0' ≤ c && c ≤ '9'

/-- Match of the regex pre + ws-run + digits + ws-run + post at the start of l
(the character classes are pairwise disjoint here, so greedy matching is plain
scanning). -/
def wsNumWsAt (pre post : List Char) (l : List Char) : Bool :=
  if pre.isPrefixOf l then
    let r1 := (l.drop pre.length).dropWhile (fun c => isJsWhitespace c)
    let digits := r1.takeWhile (fun c => isAsciiDigit c)
    if digits.isEmpty then false
    else
      post.isPrefixOf
        ((r1.dropWhile (fun c => isAsciiDigit c)).dropWhile
          (fun c => isJsWhitespace c))
  else false

/-- regex.test for the interim patterns of the doubao provider: an occurrence of
pre + ws-run + digits + ws-run + post anywhere in the list. -/
def wsNumWsSearch (pre post : List Char) : List Char → Bool
  | [] => wsNumWsAt pre post []
  | c :: rest => wsNumWsAt pre post (c :: rest) || wsNumWsSearch pre post rest

/-- The incremental streaming update each captureResponse loop applies before
its stability check (the same lines appear verbatim in the yuanbao, deepseek
and doubao providers): given the last streamed answer and the current answer
text, the new last streamed answer and the chunks handed to the onChunk
callback (none, or exactly one). -/
def streamNext (lastStreamed answer : String) : String × List String :=
  if lastStreamed.length < answer.length ∧ jsStartsWith answer lastStreamed = true then
    (answer, [jsSliceFrom answer lastStreamed.length])
  else if lastStreamed.length = 0 ∧ 0 < answer.length then
    (answer, [answer])
  else
    (lastStreamed, [])

/-- The mutable locals of one captureResponse call. seen is instrumentation
added by the embedding: the polls the loop has processed so far, used only to
state stability properties; chunks likewise records every chunk handed to
onChunk, in order. -/
structure CaptureState (Snap Poll : Type) where
  lastSnapshot : Snap
  lastSignature : String
  lastStreamedAnswer : String
  stableCount : Nat
  sawNewTurn : Bool
  chunks : List String
  seen : List Poll
deriving DecidableEq

/-- Initial capture state: baseline snapshot and signature, nothing streamed. -/
def initCaptureState {Snap Poll : Type} (baseline : Snap) (sig : String) :
    CaptureState Snap Poll :=
  { lastSnapshot := baseline, lastSignature := sig, lastStreamedAnswer := "",
    stableCount := 0, sawNewTurn := false, chunks := [], seen := [] }

/-- What a captureResponse call exposes of its final loop state. completed is
true when the loop broke on the stability condition; the source reaches its
hard-timeout bookkeeping exactly when completed is false. -/
structure CaptureOutcome (Snap Poll : Type) where
  lastSnapshot : Snap
  lastSignature : String
  sawNewTurn : Bool
  stableCount : Nat
  completed : Bool
  truncated : Bool
  chunks : List String
  lastStreamedAnswer : String
  seen : List Poll
deriving DecidableEq

/-! ## Yuanbao provider (src/providers/yuanbao.ts) -/

structure YuanbaoTurnSnapshot where
  answerText : String
  hasSourcesButton : Bool
  citationIds : List String
deriving DecidableEq

/-- turnSignature of yuanbao.ts. -/
def yuanbaoTurnSignature (turn : YuanbaoTurnSnapshot) : String :=
  String.intercalate "\n---\n"
    [turn.answerText, String.intercalate "," turn.citationIds,
      if turn.hasSourcesButton then "1" else "0"]

/-- One iteration of the yuanbao captureResponse polling loop
(STABLE_THRESHOLD = 2). Returns the updated state and whether the loop broke
on the stability condition. -/
def yuanbaoStep (baselineSignature : String)
    (s : CaptureState YuanbaoTurnSnapshot YuanbaoTurnSnapshot)
    (current : YuanbaoTurnSnapshot) :
    CaptureState YuanbaoTurnSnapshot YuanbaoTurnSnapshot × Bool :=
  let currentSignature := yuanbaoTurnSignature current
  if s.sawNewTurn = true ∨ currentSignature ≠ baselineSignature then
    let streamed := streamNext s.lastStreamedAnswer current.answerText
    let stable :=
      if currentSignature = s.lastSignature then (s.lastSignature, s.stableCount + 1)
      else (currentSignature, 0)
    ({ lastSnapshot := current, lastSignature := stable.1,
       lastStreamedAnswer := streamed.1, stableCount := stable.2,
       sawNewTurn := true, chunks := s.chunks ++ streamed.2,
       seen := s.seen ++ [current] },
      decide (2 ≤ stable.2 ∧ 0 < current.answerText.length))
  else
    ({ s with seen := s.seen ++ [current] }, false)

/-- The yuanbao polling loop over the snapshots polled before the timeout. -/
def yuanbaoLoop (baselineSignature : String)
    (s : CaptureState YuanbaoTurnSnapshot YuanbaoTurnSnapshot) :
    List YuanbaoTurnSnapshot →
    CaptureState YuanbaoTurnSnapshot YuanbaoTurnSnapshot × Bool
  | [] => (s, false)
  | p :: rest =>
    match yuanbaoStep baselineSignature s p with
    | (s2, true) => (s2, true)
    | (s2, false) => yuanbaoLoop baselineSignature s2 rest

/-- yuanbaoActions.captureResponse: run the loop from the baseline snapshot.
When sawNewTurn is false the source returns text and markdown as the empty
string; truncated is elapsed-past-timeout (the loop exhausted its polls
without completing) with stableCount below threshold and a new turn seen. -/
def yuanbaoCaptureRun (baseline : YuanbaoTurnSnapshot)
    (polls : List YuanbaoTurnSnapshot) :
    CaptureOutcome YuanbaoTurnSnapshot YuanbaoTurnSnapshot :=
  let r := yuanbaoLoop (yuanbaoTurnSignature baseline)
    (initCaptureState baseline (yuanbaoTurnSignature baseline)) polls
  { lastSnapshot := r.1.lastSnapshot, lastSignature := r.1.lastSignature,
    sawNewTurn := r.1.sawNewTurn,
    stableCount := r.1.stableCount, completed := r.2,
    truncated := !r.2 && decide (r.1.stableCount < 2) && r.1.sawNewTurn,
    chunks := r.1.chunks, lastStreamedAnswer := r.1.lastStreamedAnswer,
    seen := r.1.seen }

/-! ## DeepSeek provider (src/providers/deepseek.ts) -/

structure DeepseekTurnSnapshot where
  answerText : String
  sourceCount : Nat
  citationIds : List String
deriving DecidableEq

/-- deepseekTurnSignature of deepseek.ts. -/
def deepseekTurnSignature (turn : DeepseekTurnSnapshot) : String :=
  String.intercalate "\n---\n"
    [turn.answerText, toString turn.sourceCount,
      String.intercalate "," turn.citationIds]

/-- One poll of the deepseek loop: the snapshot the page yielded, and whether a
stop button was visible at that poll (the "still streaming" marker). -/
structure DeepseekPoll where
  snapshot : DeepseekTurnSnapshot
  stopButtonVisible : Bool
deriving DecidableEq

/-- One iteration of the deepseek captureResponse polling loop
(STABLE_THRESHOLD = 3): stableCount increments only when the signature is
unchanged and no stop button is visible; a streaming poll with unchanged
signature leaves it untouched; the break carries no non-empty-answer check.
lastSnapshot is updated only when the signature changes. -/
def deepseekStep (baselineSignature : String)
    (s : CaptureState DeepseekTurnSnapshot DeepseekPoll)
    (poll : DeepseekPoll) :
    CaptureState DeepseekTurnSnapshot DeepseekPoll × Bool :=
  let current := poll.snapshot
  let currentSignature := deepseekTurnSignature current
  if s.sawNewTurn = true ∨ currentSignature ≠ baselineSignature then
    let streamed := streamNext s.lastStreamedAnswer current.answerText
    if currentSignature = s.lastSignature then
      if poll.stopButtonVisible = true then
        ({ s with
            lastStreamedAnswer := streamed.1,
            chunks := s.chunks ++ streamed.2, sawNewTurn := true,
            seen := s.seen ++ [poll] }, false)
      else
        ({ s with
            lastStreamedAnswer := streamed.1,
            chunks := s.chunks ++ streamed.2, sawNewTurn := true,
            stableCount := s.stableCount + 1,
            seen := s.seen ++ [poll] },
          decide (3 ≤ s.stableCount + 1))
    else
      ({ lastSnapshot := current, lastSignature := currentSignature,
         lastStreamedAnswer := streamed.1, stableCount := 0,
         sawNewTurn := true, chunks := s.chunks ++ streamed.2,
         seen := s.seen ++ [poll] }, false)
  else
    ({ s with seen := s.seen ++ [poll] }, false)

/-- The deepseek polling loop. -/
def deepseekLoop (baselineSignature : String)
    (s : CaptureState DeepseekTurnSnapshot DeepseekPoll) :
    List DeepseekPoll → CaptureState DeepseekTurnSnapshot DeepseekPoll × Bool
  | [] => (s, false)
  | p :: rest =>
    match deepseekStep baselineSignature s p with
    | (s2, true) => (s2, true)
    | (s2, false) => deepseekLoop baselineSignature s2 rest

/-- The deepseek loop run from the baseline. -/
def deepseekCaptureRun (baseline : DeepseekTurnSnapshot)
    (polls : List DeepseekPoll) :
    CaptureOutcome DeepseekTurnSnapshot DeepseekPoll :=
  let r := deepseekLoop (deepseekTurnSignature baseline)
    (initCaptureState baseline (deepseekTurnSignature baseline)) polls
  { lastSnapshot := r.1.lastSnapshot, lastSignature := r.1.lastSignature,
    sawNewTurn := r.1.sawNewTurn,
    stableCount := r.1.stableCount, completed := r.2,
    truncated := !r.2 && decide (r.1.stableCount < 3),
    chunks := r.1.chunks, lastStreamedAnswer := r.1.lastStreamedAnswer,
    seen := r.1.seen }

/-- deepseekActions.captureResponse: after the loop, the source throws the
hard no-response error when no new turn was seen and nothing was streamed;
otherwise it returns the formatted capture. -/
def deepseekCaptureResponse (baseline : DeepseekTurnSnapshot)
    (polls : List DeepseekPoll) :
    Except String (CaptureOutcome DeepseekTurnSnapshot DeepseekPoll) :=
  let r := deepseekCaptureRun baseline polls
  if r.sawNewTurn = false ∧ r.lastStreamedAnswer.length = 0 then
    .error "Timed out waiting for DeepSeek assistant response"
  else
    .ok r

/-! ## Doubao provider -/

/-- A doubao page source link; the turn signature uses only the href. -/
structure DoubaoSourceLink where
  href : String
deriving DecidableEq

structure DoubaoTurnSnapshot where
  answerText : String
  messageBlockCount : Nat
  sourceLinks : List DoubaoSourceLink
deriving DecidableEq

/-- turnSignature of the doubao provider. -/
def doubaoTurnSignature (turn : DoubaoTurnSnapshot) : String :=
  toString turn.messageBlockCount ++ "\n---\n" ++ turn.answerText ++ "\n---\n"
    ++ String.intercalate "|" (turn.sourceLinks.map (fun s => s.href))

/-- isInterimAnswer of the doubao provider: the normalized, lowercased text is
empty, equals one of the interim status phrases, or matches one of the three
count patterns. -/
def isInterimAnswer (text : String) : Bool :=
  let normalized := jsToLowerCase (normalizeText text)
  if normalized = "" then true
  else
    normalized = "正在搜索" || normalized = "搜索中" ||
    normalized = "正在思考" || normalized = "思考中" ||
    normalized = "正在整理" || normalized = "生成中" ||
    wsNumWsSearch "找到".data "篇资料".data normalized.data ||
    wsNumWsSearch "分享参考".data [] normalized.data ||
    wsNumWsSearch "参考".data "篇资料".data normalized.data

/-- One poll of the doubao loop. -/
structure DoubaoPoll where
  snapshot : DoubaoTurnSnapshot
  stopButtonVisible : Bool
deriving DecidableEq

/-- One iteration of the doubao captureResponse polling loop
(STABLE_THRESHOLD = 2): sawNewTurn additionally requires a non-empty answer;
on an unchanged signature with no stop button visible, an interim answer
resets stableCount to 0 and skips the increment (the continue branch);
the streaming update runs before the interim check. -/
def doubaoStep (baselineSignature : String)
    (s : CaptureState DoubaoTurnSnapshot DoubaoPoll)
    (poll : DoubaoPoll) :
    CaptureState DoubaoTurnSnapshot DoubaoPoll × Bool :=
  let current := poll.snapshot
  let currentSignature := doubaoTurnSignature current
  if s.sawNewTurn = true ∨
      (currentSignature ≠ baselineSignature ∧ 0 < current.answerText.length) then
    let streamed := streamNext s.lastStreamedAnswer current.answerText
    if currentSignature = s.lastSignature then
      if poll.stopButtonVisible = true then
        ({ s with
            lastStreamedAnswer := streamed.1,
            chunks := s.chunks ++ streamed.2, sawNewTurn := true,
            seen := s.seen ++ [poll] }, false)
      else if isInterimAnswer current.answerText = true then
        ({ s with
            lastStreamedAnswer := streamed.1,
            chunks := s.chunks ++ streamed.2, sawNewTurn := true,
            stableCount := 0, seen := s.seen ++ [poll] }, false)
      else
        ({ s with
            lastStreamedAnswer := streamed.1,
            chunks := s.chunks ++ streamed.2, sawNewTurn := true,
            stableCount := s.stableCount + 1,
            seen := s.seen ++ [poll] },
          decide (2 ≤ s.stableCount + 1))
    else
      ({ lastSnapshot := current, lastSignature := currentSignature,
         lastStreamedAnswer := streamed.1, stableCount := 0,
         sawNewTurn := true, chunks := s.chunks ++ streamed.2,
         seen := s.seen ++ [poll] }, false)
  else
    ({ s with seen := s.seen ++ [poll] }, false)

/-- The doubao polling loop. -/
def doubaoLoop (baselineSignature : String)
    (s : CaptureState DoubaoTurnSnapshot DoubaoPoll) :
    List DoubaoPoll → CaptureState DoubaoTurnSnapshot DoubaoPoll × Bool
  | [] => (s, false)
  | p :: rest =>
    match doubaoStep baselineSignature s p with
    | (s2, true) => (s2, true)
    | (s2, false) => doubaoLoop baselineSignature s2 rest

/-- The doubao loop run from the baseline. -/
def doubaoCaptureRun (baseline : DoubaoTurnSnapshot)
    (polls : List DoubaoPoll) :
    CaptureOutcome DoubaoTurnSnapshot DoubaoPoll :=
  let r := doubaoLoop (doubaoTurnSignature baseline)
    (initCaptureState baseline (doubaoTurnSignature baseline)) polls
  { lastSnapshot := r.1.lastSnapshot, lastSignature := r.1.lastSignature,
    sawNewTurn := r.1.sawNewTurn,
    stableCount := r.1.stableCount, completed := r.2,
    truncated := !r.2 && decide (r.1.stableCount < 2),
    chunks := r.1.chunks, lastStreamedAnswer := r.1.lastStreamedAnswer,
    seen := r.1.seen }

/-- doubaoActions.captureResponse: throws the hard no-response error when no
new turn was seen and nothing was streamed. -/
def doubaoCaptureResponse (baseline : DoubaoTurnSnapshot)
    (polls : List DoubaoPoll) :
    Except String (CaptureOutcome DoubaoTurnSnapshot DoubaoPoll) :=
  let r := doubaoCaptureRun baseline polls
  if r.sawNewTurn = false ∧ r.lastStreamedAnswer.length = 0 then
    .error "Timed out waiting for Doubao assistant response"
  else
    .ok r

/-! ## Rate/Risk Guard (src/core/risk-guard.ts)

Timestamps: the source stores ISO-8601 strings and reads them back through
parseIsoOrZero (absent or unparsable gives 0); the embedding stores the parsed
epoch-millisecond value directly, as an optional Int. The sha256 prompt
fingerprint is modelled as an opaque string compared for equality only. -/

inductive ChatRunMode where
  | headed
  | headless
deriving DecidableEq

inductive RiskOutcomeKind where
  | success
  | paused_generation
  | captcha_or_verification
  | http_429
  | auth_required
  | timeout
  | other_error
deriving DecidableEq

structure AttemptEntry where
  atMs : Int
  mode : ChatRunMode
  promptHash : String
deriving DecidableEq

structure RiskEventEntry where
  atMs : Int
  kind : RiskOutcomeKind
  message : String
deriving DecidableEq

structure ProviderRiskState where
  lastAttemptAt : Option Int
  attempts : List AttemptEntry
  riskEvents : List RiskEventEntry
  consecutiveRiskEvents : Nat
  cooldownUntil : Option Int
  breakerUntil : Option Int
deriving DecidableEq

structure ProviderRiskPolicy where
  minIntervalMsHeaded : Int
  minIntervalMsHeadless : Int
  attemptsWindowMs : Int
  attemptsLimit : Nat
  headlessAttemptsWindowMs : Int
  headlessAttemptsLimit : Nat
  samePromptWindowMs : Int
  samePromptLimit : Nat
  cooldownOnRateLimitMs : Int
  cooldownByOutcomeMs : RiskOutcomeKind → Option Int
  breakerConsecutiveRiskThreshold : Nat
  breakerDurationMs : Int

structure GuardDecision where
  allowed : Bool
  message : Option String
  waitMs : Option Int
deriving DecidableEq

/-- DEFAULT_POLICY of risk-guard.ts. -/
def DEFAULT_POLICY : ProviderRiskPolicy :=
  { minIntervalMsHeaded := 60000
    minIntervalMsHeadless := 180000
    attemptsWindowMs := 30 * 60000
    attemptsLimit := 5
    headlessAttemptsWindowMs := 60 * 60000
    headlessAttemptsLimit := 3
    samePromptWindowMs := 12 * 60 * 60000
    samePromptLimit := 2
    cooldownOnRateLimitMs := 15 * 60000
    cooldownByOutcomeMs := fun kind =>
      match kind with
      | .paused_generation => some (20 * 60000)
      | .captcha_or_verification => some (45 * 60000)
      | .http_429 => some (60 * 60000)
      | .auth_required => some (10 * 60000)
      | _ => none
    breakerConsecutiveRiskThreshold := 3
    breakerDurationMs := 6 * 60 * 60000 }

/-- parseIsoOrZero: an absent timestamp reads as 0. -/
def parseIsoOrZero : Option Int → Int
  | none => 0
  | some v => v

/-- isRiskOutcome of risk-guard.ts. -/
def isRiskOutcome (kind : RiskOutcomeKind) : Bool :=
  kind = .paused_generation || kind = .captcha_or_verification ||
  kind = .http_429 || kind = .auth_required

/-- defaultProviderState of risk-guard.ts. -/
def defaultProviderState : ProviderRiskState :=
  { lastAttemptAt := none, attempts := [], riskEvents := [],
    consecutiveRiskEvents := 0, cooldownUntil := none, breakerUntil := none }

/-- pruneState of risk-guard.ts: drop attempts older than the longest attempt
window and risk events older than the risk retention window. -/
def pruneState (s : ProviderRiskState) (nowMs : Int)
    (policy : ProviderRiskPolicy) : ProviderRiskState :=
  let attemptsRetentionMs :=
    max policy.attemptsWindowMs
      (max policy.headlessAttemptsWindowMs policy.samePromptWindowMs)
  let riskRetentionMs := max policy.breakerDurationMs (24 * 60 * 60000)
  { s with
      attempts := s.attempts.filter
        (fun attempt => nowMs - attemptsRetentionMs ≤ attempt.atMs)
      riskEvents := s.riskEvents.filter
        (fun event => nowMs - riskRetentionMs ≤ event.atMs) }

/-- The mode name as interpolated into the minimum-interval message. -/
def modeName : ChatRunMode → String
  | .headed => "headed"
  | .headless => "headless"

/-- enforceRateLimits of risk-guard.ts: the rule chain, in source order.
Returns the (possibly cooldown-updated) provider state together with the
decision; the source mutates providerState in place and the caller persists
it. -/
def enforceRateLimits (provider : String) (providerState : ProviderRiskState)
    (policy : ProviderRiskPolicy) (nowMs : Int) (mode : ChatRunMode)
    (promptHash : String) : ProviderRiskState × GuardDecision :=
  let breakerUntilMs := parseIsoOrZero providerState.breakerUntil
  if nowMs < breakerUntilMs then
    (providerState,
      { allowed := false, waitMs := some (breakerUntilMs - nowMs),
        message := some (provider ++ " risk breaker is active. Retry later.") })
  else
    let cooldownUntilMs := parseIsoOrZero providerState.cooldownUntil
    if nowMs < cooldownUntilMs then
      (providerState,
        { allowed := false, waitMs := some (cooldownUntilMs - nowMs),
          message := some (provider ++ " is cooling down to avoid risk control.") })
    else
      let lastAttemptMs := parseIsoOrZero providerState.lastAttemptAt
      let minIntervalMs :=
        if mode = .headless then policy.minIntervalMsHeadless
        else policy.minIntervalMsHeaded
      if 0 < lastAttemptMs ∧ nowMs - lastAttemptMs < minIntervalMs then
        (providerState,
          { allowed := false,
            waitMs := some (minIntervalMs - (nowMs - lastAttemptMs)),
            message := some (provider ++ " minimum interval not reached ("
              ++ modeName mode ++ ").") })
      else
        let attemptsInWindow := providerState.attempts.filter
          (fun attempt => nowMs - policy.attemptsWindowMs ≤ attempt.atMs)
        if policy.attemptsLimit ≤ attemptsInWindow.length then
          ({ providerState with
              cooldownUntil := some (nowMs + policy.cooldownOnRateLimitMs) },
            { allowed := false, waitMs := some policy.cooldownOnRateLimitMs,
              message := some (provider ++ " request rate is too high in recent window.") })
        else
          let headlessAttempts := providerState.attempts.filter
            (fun attempt => attempt.mode = .headless ∧
              nowMs - policy.headlessAttemptsWindowMs ≤ attempt.atMs)
          if mode = .headless ∧ policy.headlessAttemptsLimit ≤ headlessAttempts.length then
            ({ providerState with
                cooldownUntil := some (nowMs + policy.cooldownOnRateLimitMs) },
              { allowed := false, waitMs := some policy.cooldownOnRateLimitMs,
                message := some (provider ++ " headless request rate is too high.") })
          else
            let samePromptAttempts := providerState.attempts.filter
              (fun attempt => attempt.promptHash = promptHash ∧
                nowMs - policy.samePromptWindowMs ≤ attempt.atMs)
            if policy.samePromptLimit ≤ samePromptAttempts.length then
              ({ providerState with
                  cooldownUntil := some (nowMs + policy.cooldownOnRateLimitMs) },
                { allowed := false, waitMs := some policy.cooldownOnRateLimitMs,
                  message := some (provider ++ " repeated prompt pattern detected.") })
            else
              (providerState, { allowed := true, message := none, waitMs := none })

/-- evaluateRiskGuard of risk-guard.ts, for one provider state: prune, then run
the rule chain; the returned state is what the source persists. -/
def evaluateRiskGuard (provider : String) (providerState : ProviderRiskState)
    (policy : ProviderRiskPolicy) (nowMs : Int) (mode : ChatRunMode)
    (promptHash : String) : ProviderRiskState × GuardDecision :=
  enforceRateLimits provider (pruneState providerState nowMs policy) policy
    nowMs mode promptHash

/-- recordRiskOutcome of risk-guard.ts, for one provider state. -/
def recordRiskOutcome (providerState : ProviderRiskState)
    (policy : ProviderRiskPolicy) (nowMs : Int) (kind : RiskOutcomeKind)
    (message : String) : ProviderRiskState :=
  let s := pruneState providerState nowMs policy
  if kind = .success then
    { s with consecutiveRiskEvents := 0 }
  else
    let s : ProviderRiskState := { s with
      riskEvents := s.riskEvents ++
        [{ atMs := nowMs, kind := kind, message := message.take 500 }] }
    let s : ProviderRiskState :=
      if isRiskOutcome kind = true then
        let cooldownMs := (policy.cooldownByOutcomeMs kind).getD
          policy.cooldownOnRateLimitMs
        let candidateCooldownUntilMs := nowMs + cooldownMs
        let currentCooldownUntilMs := parseIsoOrZero s.cooldownUntil
        { s with
            consecutiveRiskEvents := s.consecutiveRiskEvents + 1,
            cooldownUntil :=
              if currentCooldownUntilMs < candidateCooldownUntilMs then
                some candidateCooldownUntilMs
              else s.cooldownUntil }
      else
        { s with consecutiveRiskEvents := 0 }
    if policy.breakerConsecutiveRiskThreshold ≤ s.consecutiveRiskEvents then
      let candidateBreakerUntilMs := nowMs + policy.breakerDurationMs
      let currentBreakerUntilMs := parseIsoOrZero s.breakerUntil
      { s with
          breakerUntil :=
            if currentBreakerUntilMs < candidateBreakerUntilMs then
              some candidateBreakerUntilMs
            else s.breakerUntil }
    else s

/-- detectRiskOutcomeFromError of risk-guard.ts, on the error message. -/
def detectRiskOutcomeFromError (errorMessage : String) : RiskOutcomeKind :=
  let message := jsToLowerCase errorMessage
  if jsIncludes message "验证码" || jsIncludes message "captcha" ||
      jsIncludes message "人机验证" || jsIncludes message "verify" then
    .captcha_or_verification
  else if jsIncludes message "http 429" || jsIncludes message "429" ||
      jsIncludes message "too many requests" then
    .http_429
  else if jsIncludes message "not logged in" || jsIncludes message "login" then
    .auth_required
  else if jsIncludes message "timeout" || jsIncludes message "timed out" then
    .timeout
  else if jsIncludes message "暂停生成" || jsIncludes message "paused" then
    .paused_generation
  else
    .other_error

/-- detectRiskOutcomeFromResponse of risk-guard.ts. -/
def detectRiskOutcomeFromResponse (text : String) : RiskOutcomeKind :=
  let normalized := jsToLowerCase text
  if jsIncludes normalized "已暂停生成" || jsIncludes normalized "暂停生成" then
    .paused_generation
  else if jsIncludes normalized "验证码" || jsIncludes normalized "captcha" ||
      jsIncludes normalized "人机验证" || jsIncludes normalized "verify" then
    .captcha_or_verification
  else
    .success

/-! ## Spec-side rule chain for the guard evaluate call

Modelled from the spec: section 4.4 describes evaluate as checking an ordered
list of rules — breaker, cooldown, minimum interval for the mode, attempt cap,
headless attempt cap, duplicate-prompt cap — where the first violated rule
determines the reported reason and wait, the three cap rules additionally set
a cooldown, and no violation yields allowed. This second definition follows
the words of the spec and is compared with enforceRateLimits by a
refinement theorem below. -/

structure RuleCheck where
  violated : Bool
  message : String
  waitMs : Int
  setsCooldown : Bool

/-- The ordered guard rules, each with the violation test the spec describes
and the message and wait the source reports for it. -/
def guardRules (provider : String) (s : ProviderRiskState)
    (policy : ProviderRiskPolicy) (nowMs : Int) (mode : ChatRunMode)
    (promptHash : String) : List RuleCheck :=
  [ { violated := decide (nowMs < parseIsoOrZero s.breakerUntil),
      message := provider ++ " risk breaker is active. Retry later.",
      waitMs := parseIsoOrZero s.breakerUntil - nowMs,
      setsCooldown := false },
    { violated := decide (nowMs < parseIsoOrZero s.cooldownUntil),
      message := provider ++ " is cooling down to avoid risk control.",
      waitMs := parseIsoOrZero s.cooldownUntil - nowMs,
      setsCooldown := false },
    { violated := decide (0 < parseIsoOrZero s.lastAttemptAt ∧
        nowMs - parseIsoOrZero s.lastAttemptAt <
          (if mode = .headless then policy.minIntervalMsHeadless
            else policy.minIntervalMsHeaded)),
      message := provider ++ " minimum interval not reached ("
        ++ modeName mode ++ ").",
      waitMs := (if mode = .headless then policy.minIntervalMsHeadless
          else policy.minIntervalMsHeaded)
        - (nowMs - parseIsoOrZero s.lastAttemptAt),
      setsCooldown := false },
    { violated := decide (policy.attemptsLimit ≤
        (s.attempts.filter
          (fun attempt => nowMs - policy.attemptsWindowMs ≤ attempt.atMs)).length),
      message := provider ++ " request rate is too high in recent window.",
      waitMs := policy.cooldownOnRateLimitMs,
      setsCooldown := true },
    { violated := decide (mode = .headless ∧ policy.headlessAttemptsLimit ≤
        (s.attempts.filter
          (fun attempt => attempt.mode = .headless ∧
            nowMs - policy.headlessAttemptsWindowMs ≤ attempt.atMs)).length),
      message := provider ++ " headless request rate is too high.",
      waitMs := policy.cooldownOnRateLimitMs,
      setsCooldown := true },
    { violated := decide (policy.samePromptLimit ≤
        (s.attempts.filter
          (fun attempt => attempt.promptHash = promptHash ∧
            nowMs - policy.samePromptWindowMs ≤ attempt.atMs)).length),
      message := provider ++ " repeated prompt pattern detected.",
      waitMs := policy.cooldownOnRateLimitMs,
      setsCooldown := true } ]

/-- The first violated rule of an ordered rule list. -/
def firstViolated : List RuleCheck → Option RuleCheck
  | [] => none
  | r :: rest => if r.violated = true then some r else firstViolated rest

/-- Modelled from the spec: evaluate reports the first violated rule of the
ordered list (reason and wait from that rule, a cooldown set when the rule is
one of the caps), or allows the attempt when no rule is violated. -/
def enforceRateLimitsSpec (provider : String) (s : ProviderRiskState)
    (policy : ProviderRiskPolicy) (nowMs : Int) (mode : ChatRunMode)
    (promptHash : String) : ProviderRiskState × GuardDecision :=
  match firstViolated (guardRules provider s policy nowMs mode promptHash) with
  | none => (s, { allowed := true, message := none, waitMs := none })
  | some r =>
    ((if r.setsCooldown = true then
        { s with cooldownUntil := some (nowMs + policy.cooldownOnRateLimitMs) }
      else s),
      { allowed := false, message := some r.message, waitMs := some r.waitMs })

/-! ## Session Orchestrator: runChat

runChat is modelled as a function of an environment fixing the outcome of each
externally-effectful stage: the guard decision, the browser launch, the final
login state after the login fallbacks, and the final capture outcome after the
submit/capture retry loop. The trace records the result and every risk
outcome kind handed to recordRiskOutcome, in order. Bundle building, session
persistence and telemetry error events are not modelled: they record no risk
outcome. The blocked message is modelled without its optional wait and reason
hints. -/

deriving instance DecidableEq for Except

/-- The fields of CapturedResponse the orchestrator classifies outcomes from. -/
structure CapturedResponseLite where
  text : String
  truncated : Bool
deriving DecidableEq

structure RunChatEnv where
  providerName : String
  displayName : String
  guardDecision : GuardDecision
  launchResult : Except String Unit
  loggedIn : Bool
  captureResult : Except String CapturedResponseLite
deriving DecidableEq

structure RunChatTrace where
  result : Except String CapturedResponseLite
  recordedOutcomes : List RiskOutcomeKind
deriving DecidableEq

/-- runChat of the chat command: guard precheck (throws without recording an
outcome when denied), browser launch (its catch block updates the session and
records a telemetry event, then rethrows — no outcome is recorded), the login
check (a login failure throws inside the main try, whose catch records an
outcome classified from the error before rethrowing), capture (same catch),
and on success an outcome classified from the captured text, or timeout when
truncated. -/
def runChat (env : RunChatEnv) : RunChatTrace :=
  if env.guardDecision.allowed = false then
    { result := .error ("Risk guard blocked this " ++ env.displayName
        ++ " request to reduce platform risk."),
      recordedOutcomes := [] }
  else
    match env.launchResult with
    | .error e => { result := .error e, recordedOutcomes := [] }
    | .ok _ =>
      if env.loggedIn = false then
        let msg := "Not logged in to " ++ env.displayName
          ++ ". Run: douzhi-chat login " ++ env.providerName
        { result := .error msg,
          recordedOutcomes := [detectRiskOutcomeFromError msg] }
      else
        match env.captureResult with
        | .error e =>
          { result := .error e,
            recordedOutcomes := [detectRiskOutcomeFromError e] }
        | .ok captured =>
          let riskOutcome :=
            if captured.truncated = true then RiskOutcomeKind.timeout
            else detectRiskOutcomeFromResponse captured.text
          { result := .ok captured, recordedOutcomes := [riskOutcome] }

/-- Concatenation, in order, of the chunks a capture loop handed to onChunk:
what a streaming consumer has assembled so far. -/
def concatChunks (chunks : List String) : String :=
  chunks.foldr (fun a b => a ++ b) ""

/-! ## Helper lemmas: recordRiskOutcome field equations -/

theorem pruneState_consecutive (s : ProviderRiskState) (nowMs : Int)
    (policy : ProviderRiskPolicy) :
    (pruneState s nowMs policy).consecutiveRiskEvents = s.consecutiveRiskEvents := rfl

theorem pruneState_cooldownUntil (s : ProviderRiskState) (nowMs : Int)
    (policy : ProviderRiskPolicy) :
    (pruneState s nowMs policy).cooldownUntil = s.cooldownUntil := rfl

theorem pruneState_breakerUntil (s : ProviderRiskState) (nowMs : Int)
    (policy : ProviderRiskPolicy) :
    (pruneState s nowMs policy).breakerUntil = s.breakerUntil := rfl

theorem recordRiskOutcome_consecutive (s : ProviderRiskState)
    (policy : ProviderRiskPolicy) (nowMs : Int) (kind : RiskOutcomeKind)
    (message : String) :
    (recordRiskOutcome s policy nowMs kind message).consecutiveRiskEvents =
      if isRiskOutcome kind = true then s.consecutiveRiskEvents + 1 else 0 := by
  unfold recordRiskOutcome
  by_cases hk : kind = RiskOutcomeKind.success
  · subst hk; simp [isRiskOutcome]
  · simp only [if_neg hk]
    by_cases hr : isRiskOutcome kind = true
    · simp only [if_pos hr]
      split <;> simp [pruneState]
    · simp only [if_neg hr]
      split <;> simp [pruneState]

theorem recordRiskOutcome_cooldownUntil (s : ProviderRiskState)
    (policy : ProviderRiskPolicy) (nowMs : Int) (kind : RiskOutcomeKind)
    (message : String) :
    (recordRiskOutcome s policy nowMs kind message).cooldownUntil =
      if isRiskOutcome kind = true then
        (if parseIsoOrZero s.cooldownUntil <
            nowMs + (policy.cooldownByOutcomeMs kind).getD policy.cooldownOnRateLimitMs
          then some (nowMs +
            (policy.cooldownByOutcomeMs kind).getD policy.cooldownOnRateLimitMs)
          else s.cooldownUntil)
      else s.cooldownUntil := by
  unfold recordRiskOutcome
  by_cases hk : kind = RiskOutcomeKind.success
  · subst hk; simp [isRiskOutcome, pruneState_cooldownUntil]
  · simp only [if_neg hk]
    by_cases hr : isRiskOutcome kind = true
    · simp only [if_pos hr,
        apply_ite (fun st : ProviderRiskState => st.cooldownUntil)]
      simp [pruneState_cooldownUntil]
    · simp only [if_neg hr,
        apply_ite (fun st : ProviderRiskState => st.cooldownUntil)]
      simp [pruneState_cooldownUntil, hr]

theorem recordRiskOutcome_breakerUntil (s : ProviderRiskState)
    (policy : ProviderRiskPolicy) (nowMs : Int) (kind : RiskOutcomeKind)
    (message : String) :
    (recordRiskOutcome s policy nowMs kind message).breakerUntil =
      if kind = RiskOutcomeKind.success then s.breakerUntil
      else if policy.breakerConsecutiveRiskThreshold ≤
          (if isRiskOutcome kind = true then s.consecutiveRiskEvents + 1 else 0) then
        (if parseIsoOrZero s.breakerUntil < nowMs + policy.breakerDurationMs
          then some (nowMs + policy.breakerDurationMs)
          else s.breakerUntil)
      else s.breakerUntil := by
  unfold recordRiskOutcome
  by_cases hk : kind = RiskOutcomeKind.success
  · subst hk; simp [isRiskOutcome, pruneState_breakerUntil]
  · simp only [if_neg hk]
    by_cases hr : isRiskOutcome kind = true
    · simp only [if_pos hr,
        apply_ite (fun st : ProviderRiskState => st.breakerUntil)]
      simp [pruneState_breakerUntil, pruneState_consecutive, hr]
    · simp only [if_neg hr,
        apply_ite (fun st : ProviderRiskState => st.breakerUntil)]
      simp [pruneState_breakerUntil, pruneState_consecutive, hr]

theorem isRisk_ne_success (kind : RiskOutcomeKind)
    (h : isRiskOutcome kind = true) : kind ≠ RiskOutcomeKind.success := by
  cases kind <;> simp_all [isRiskOutcome]

/-- Claim C5 counterexample: on a state with consecutiveRiskEvents = 2,
recording a timeout outcome resets the counter to 0, while the claim says the
timeout and other_error kinds neither increment nor reset it (the counter
should have stayed 2). -/
theorem c5_counterexample :
    (recordRiskOutcome { defaultProviderState with consecutiveRiskEvents := 2 }
        DEFAULT_POLICY 1000 RiskOutcomeKind.timeout "").consecutiveRiskEvents = 0 ∧
    (recordRiskOutcome { defaultProviderState with consecutiveRiskEvents := 2 }
        DEFAULT_POLICY 1000 RiskOutcomeKind.timeout "").consecutiveRiskEvents ≠ 2 := by
  constructor <;> decide

/-- Claim C5 (amended): a risk-bearing kind increments consecutiveRiskEvents by
one, and every other kind — success, and also timeout and other_error —
resets it to 0 (the source resets on the non-risk, non-success kinds too,
where the claim said they leave the counter untouched); consequently, with the
default breaker threshold of 3, two risk-bearing outcomes, a success, and two
more risk-bearing outcomes never set the breaker. -/
theorem c5_consecutive_risk_counter :
    (∀ (s : ProviderRiskState) (policy : ProviderRiskPolicy) (nowMs : Int)
        (kind : RiskOutcomeKind) (message : String),
      (recordRiskOutcome s policy nowMs kind message).consecutiveRiskEvents =
        if isRiskOutcome kind = true then s.consecutiveRiskEvents + 1 else 0) ∧
    (∀ (t1 t2 t3 t4 t5 : Int) (k1 k2 k4 k5 : RiskOutcomeKind) (m : String),
      isRiskOutcome k1 = true → isRiskOutcome k2 = true →
      isRiskOutcome k4 = true → isRiskOutcome k5 = true →
      (recordRiskOutcome (recordRiskOutcome (recordRiskOutcome
        (recordRiskOutcome (recordRiskOutcome defaultProviderState
          DEFAULT_POLICY t1 k1 m)
        DEFAULT_POLICY t2 k2 m) DEFAULT_POLICY t3 RiskOutcomeKind.success m)
        DEFAULT_POLICY t4 k4 m) DEFAULT_POLICY t5 k5 m).breakerUntil = none) := by
  constructor
  · exact fun s policy nowMs kind message =>
      recordRiskOutcome_consecutive s policy nowMs kind message
  · intro t1 t2 t3 t4 t5 k1 k2 k4 k5 m h1 h2 h4 h5
    set r1 := recordRiskOutcome defaultProviderState DEFAULT_POLICY t1 k1 m with hr1
    set r2 := recordRiskOutcome r1 DEFAULT_POLICY t2 k2 m with hr2
    set r3 := recordRiskOutcome r2 DEFAULT_POLICY t3 RiskOutcomeKind.success m with hr3
    set r4 := recordRiskOutcome r3 DEFAULT_POLICY t4 k4 m with hr4
    have hc1 : r1.consecutiveRiskEvents = 1 := by
      rw [hr1, recordRiskOutcome_consecutive]
      simp [h1, defaultProviderState]
    have hb1 : r1.breakerUntil = none := by
      rw [hr1, recordRiskOutcome_breakerUntil]
      simp [isRisk_ne_success k1 h1, h1, defaultProviderState, DEFAULT_POLICY]
    have hc2 : r2.consecutiveRiskEvents = 2 := by
      rw [hr2, recordRiskOutcome_consecutive]
      simp [h2, hc1]
    have hb2 : r2.breakerUntil = none := by
      rw [hr2, recordRiskOutcome_breakerUntil]
      simp [isRisk_ne_success k2 h2, h2, hc1, hb1, DEFAULT_POLICY]
    have hc3 : r3.consecutiveRiskEvents = 0 := by
      rw [hr3, recordRiskOutcome_consecutive]
      simp [isRiskOutcome]
    have hb3 : r3.breakerUntil = none := by
      rw [hr3, recordRiskOutcome_breakerUntil]
      simp [hb2]
    have hc4 : r4.consecutiveRiskEvents = 1 := by
      rw [hr4, recordRiskOutcome_consecutive]
      simp [h4, hc3]
    have hb4 : r4.breakerUntil = none := by
      rw [hr4, recordRiskOutcome_breakerUntil]
      simp [isRisk_ne_success k4 h4, h4, hc3, hb3, DEFAULT_POLICY]
    rw [recordRiskOutcome_breakerUntil]
    simp [isRisk_ne_success k5 h5, h5, hc4, hb4, DEFAULT_POLICY]

theorem parseIsoOrZero_some (v : Int) : parseIsoOrZero (some v) = v := rfl

/-- Claim C7: recordOutcome never shortens the cooldown or breaker window: both
expiries are monotonically non-decreasing across any recorded outcome, and for
a risk-bearing kind the new cooldown expiry is exactly the maximum of the
stored expiry and the kind-specific candidate expiry. -/
theorem c7_windows_never_shortened :
    (∀ (s : ProviderRiskState) (policy : ProviderRiskPolicy) (nowMs : Int)
        (kind : RiskOutcomeKind) (message : String),
      parseIsoOrZero s.cooldownUntil ≤
        parseIsoOrZero ((recordRiskOutcome s policy nowMs kind message).cooldownUntil)) ∧
    (∀ (s : ProviderRiskState) (policy : ProviderRiskPolicy) (nowMs : Int)
        (kind : RiskOutcomeKind) (message : String),
      parseIsoOrZero s.breakerUntil ≤
        parseIsoOrZero ((recordRiskOutcome s policy nowMs kind message).breakerUntil)) ∧
    (∀ (s : ProviderRiskState) (policy : ProviderRiskPolicy) (nowMs : Int)
        (kind : RiskOutcomeKind) (message : String),
      isRiskOutcome kind = true →
      parseIsoOrZero ((recordRiskOutcome s policy nowMs kind message).cooldownUntil) =
        max (parseIsoOrZero s.cooldownUntil)
          (nowMs + (policy.cooldownByOutcomeMs kind).getD policy.cooldownOnRateLimitMs)) := by
  refine ⟨?_, ?_, ?_⟩
  · intro s policy nowMs kind message
    rw [recordRiskOutcome_cooldownUntil]
    by_cases hr : isRiskOutcome kind = true
    · simp only [if_pos hr]
      by_cases hlt : parseIsoOrZero s.cooldownUntil <
          nowMs + (policy.cooldownByOutcomeMs kind).getD policy.cooldownOnRateLimitMs
      · rw [if_pos hlt]; simp only [parseIsoOrZero_some]; omega
      · simp only [if_neg hlt]; exact le_refl _
    · simp only [if_neg hr]; exact le_refl _
  · intro s policy nowMs kind message
    rw [recordRiskOutcome_breakerUntil]
    by_cases hk : kind = RiskOutcomeKind.success
    · simp only [if_pos hk]; exact le_refl _
    · simp only [if_neg hk]
      by_cases hth : policy.breakerConsecutiveRiskThreshold ≤
          (if isRiskOutcome kind = true then s.consecutiveRiskEvents + 1 else 0)
      · simp only [if_pos hth]
        by_cases hlt : parseIsoOrZero s.breakerUntil < nowMs + policy.breakerDurationMs
        · rw [if_pos hlt]; simp only [parseIsoOrZero_some]; omega
        · simp only [if_neg hlt]; exact le_refl _
      · simp only [if_neg hth]; exact le_refl _
  · intro s policy nowMs kind message hr
    rw [recordRiskOutcome_cooldownUntil]
    simp only [if_pos hr]
    by_cases hlt : parseIsoOrZero s.cooldownUntil <
        nowMs + (policy.cooldownByOutcomeMs kind).getD policy.cooldownOnRateLimitMs
    · rw [if_pos hlt]
      simp only [parseIsoOrZero_some]
      exact (max_eq_right (le_of_lt hlt)).symm
    · simp only [if_neg hlt]
      exact (max_eq_left (le_of_not_lt hlt)).symm

/-- Witness for claim C7: recording an http_429 outcome on the fresh default
state at time 0 under the default policy sets the cooldown expiry to the
maximum of the stored expiry (0) and the http_429 candidate expiry. -/
theorem c7_witness :
    parseIsoOrZero ((recordRiskOutcome defaultProviderState DEFAULT_POLICY 0
        RiskOutcomeKind.http_429 "").cooldownUntil) =
      max (parseIsoOrZero defaultProviderState.cooldownUntil)
        (0 + (DEFAULT_POLICY.cooldownByOutcomeMs RiskOutcomeKind.http_429).getD
          DEFAULT_POLICY.cooldownOnRateLimitMs) :=
  c7_windows_never_shortened.2.2 defaultProviderState DEFAULT_POLICY 0
    RiskOutcomeKind.http_429 "" (by decide)

theorem evaluateRiskGuard_breaker_active (provider : String)
    (s : ProviderRiskState) (policy : ProviderRiskPolicy) (nowMs : Int)
    (mode : ChatRunMode) (promptHash : String)
    (h : nowMs < parseIsoOrZero s.breakerUntil) :
    (evaluateRiskGuard provider s policy nowMs mode promptHash).2 =
      { allowed := false,
        message := some (provider ++ " risk breaker is active. Retry later."),
        waitMs := some (parseIsoOrZero s.breakerUntil - nowMs) } := by
  simp only [evaluateRiskGuard, enforceRateLimits, pruneState_breakerUntil]
  rw [if_pos h]

/-- Claim C4: three consecutive risk-bearing outcomes (no intervening call of
any other kind) drive consecutiveRiskEvents past the breaker threshold, so the
breaker window extends to at least the third outcome plus the breaker
duration, and every evaluate call at any wall-clock time inside that window is
denied with the breaker message. -/
theorem c4_breaker_blocks_evaluate (provider promptHash m1 m2 m3 : String)
    (policy : ProviderRiskPolicy) (s : ProviderRiskState)
    (t1 t2 t3 tEval : Int) (mode : ChatRunMode) (k1 k2 k3 : RiskOutcomeKind)
    (h1 : isRiskOutcome k1 = true) (h2 : isRiskOutcome k2 = true)
    (h3 : isRiskOutcome k3 = true)
    (hth : policy.breakerConsecutiveRiskThreshold ≤ 3) :
    t3 + policy.breakerDurationMs ≤ parseIsoOrZero
      (recordRiskOutcome (recordRiskOutcome (recordRiskOutcome s policy t1 k1 m1)
        policy t2 k2 m2) policy t3 k3 m3).breakerUntil ∧
    (tEval < parseIsoOrZero
        (recordRiskOutcome (recordRiskOutcome (recordRiskOutcome s policy t1 k1 m1)
          policy t2 k2 m2) policy t3 k3 m3).breakerUntil →
      (evaluateRiskGuard provider
        (recordRiskOutcome (recordRiskOutcome (recordRiskOutcome s policy t1 k1 m1)
          policy t2 k2 m2) policy t3 k3 m3)
        policy tEval mode promptHash).2.allowed = false ∧
      (evaluateRiskGuard provider
        (recordRiskOutcome (recordRiskOutcome (recordRiskOutcome s policy t1 k1 m1)
          policy t2 k2 m2) policy t3 k3 m3)
        policy tEval mode promptHash).2.message =
        some (provider ++ " risk breaker is active. Retry later.")) := by
  set r1 := recordRiskOutcome s policy t1 k1 m1 with hr1
  set r2 := recordRiskOutcome r1 policy t2 k2 m2 with hr2
  have hc1 : r1.consecutiveRiskEvents = s.consecutiveRiskEvents + 1 := by
    rw [hr1, recordRiskOutcome_consecutive]; simp [h1]
  have hc2 : r2.consecutiveRiskEvents = s.consecutiveRiskEvents + 2 := by
    rw [hr2, recordRiskOutcome_consecutive]; simp [h2, hc1]
  have hbound : t3 + policy.breakerDurationMs ≤ parseIsoOrZero
      (recordRiskOutcome r2 policy t3 k3 m3).breakerUntil := by
    rw [recordRiskOutcome_breakerUntil]
    rw [if_neg (isRisk_ne_success k3 h3), if_pos]
    · by_cases hlt : parseIsoOrZero r2.breakerUntil < t3 + policy.breakerDurationMs
      · rw [if_pos hlt, parseIsoOrZero_some]
      · rw [if_neg hlt]; omega
    · rw [if_pos h3, hc2]; omega
  refine ⟨hbound, fun hwin => ?_⟩
  rw [evaluateRiskGuard_breaker_active provider _ policy tEval mode promptHash hwin]
  exact ⟨rfl, rfl⟩

/-- Witness for claim C4: three http_429 outcomes on the fresh default state at
times 0, 1, 2 under the default policy (threshold 3) leave the breaker active
at time 1000, where evaluate denies the attempt citing the breaker. -/
theorem c4_witness :
    2 + DEFAULT_POLICY.breakerDurationMs ≤ parseIsoOrZero
      (recordRiskOutcome (recordRiskOutcome (recordRiskOutcome
        defaultProviderState DEFAULT_POLICY 0 RiskOutcomeKind.http_429 "")
        DEFAULT_POLICY 1 RiskOutcomeKind.http_429 "")
        DEFAULT_POLICY 2 RiskOutcomeKind.http_429 "").breakerUntil ∧
    ((evaluateRiskGuard "yuanbao"
        (recordRiskOutcome (recordRiskOutcome (recordRiskOutcome
          defaultProviderState DEFAULT_POLICY 0 RiskOutcomeKind.http_429 "")
          DEFAULT_POLICY 1 RiskOutcomeKind.http_429 "")
          DEFAULT_POLICY 2 RiskOutcomeKind.http_429 "")
        DEFAULT_POLICY 1000 ChatRunMode.headless "h").2.allowed = false ∧
      (evaluateRiskGuard "yuanbao"
        (recordRiskOutcome (recordRiskOutcome (recordRiskOutcome
          defaultProviderState DEFAULT_POLICY 0 RiskOutcomeKind.http_429 "")
          DEFAULT_POLICY 1 RiskOutcomeKind.http_429 "")
          DEFAULT_POLICY 2 RiskOutcomeKind.http_429 "")
        DEFAULT_POLICY 1000 ChatRunMode.headless "h").2.message =
        some ("yuanbao" ++ " risk breaker is active. Retry later.")) := by
  have h := c4_breaker_blocks_evaluate "yuanbao" "h" "" "" "" DEFAULT_POLICY
    defaultProviderState 0 1 2 1000 ChatRunMode.headless
    RiskOutcomeKind.http_429 RiskOutcomeKind.http_429 RiskOutcomeKind.http_429
    (by decide) (by decide) (by decide) (by decide)
  exact ⟨h.1, h.2 (by decide)⟩

/-- Claim C6: evaluate checks the rules in the fixed order breaker, cooldown,
minimum interval for the mode, attempt cap, headless attempt cap,
duplicate-prompt cap; the first violated rule determines the reason and wait,
the three cap rules additionally set a cooldown, and when no rule is violated
the attempt is allowed: the source rule chain coincides with the ordered
first-violated-rule-wins reading of the spec. -/
theorem c6_evaluate_rule_order (provider promptHash : String)
    (s : ProviderRiskState) (policy : ProviderRiskPolicy) (nowMs : Int)
    (mode : ChatRunMode) :
    enforceRateLimits provider s policy nowMs mode promptHash =
      enforceRateLimitsSpec provider s policy nowMs mode promptHash ∧
    evaluateRiskGuard provider s policy nowMs mode promptHash =
      enforceRateLimitsSpec provider (pruneState s nowMs policy) policy nowMs
        mode promptHash := by
  have key : ∀ s' : ProviderRiskState,
      enforceRateLimits provider s' policy nowMs mode promptHash =
        enforceRateLimitsSpec provider s' policy nowMs mode promptHash := by
    intro s'
    simp only [enforceRateLimits, enforceRateLimitsSpec, guardRules,
      firstViolated, decide_eq_true_eq]
    split_ifs <;> rfl
  exact ⟨key s, key (pruneState s nowMs policy)⟩

/-- Claim C9: detectRiskOutcomeFromResponse only ever returns
paused_generation, captcha_or_verification or success; a text containing none
of the paused or verification phrase patterns is classified success; and
recording a success outcome resets consecutiveRiskEvents to 0. -/
theorem c9_response_classifier :
    (∀ text : String,
      detectRiskOutcomeFromResponse text = RiskOutcomeKind.paused_generation ∨
      detectRiskOutcomeFromResponse text = RiskOutcomeKind.captcha_or_verification ∨
      detectRiskOutcomeFromResponse text = RiskOutcomeKind.success) ∧
    (∀ text : String,
      jsIncludes (jsToLowerCase text) "已暂停生成" = false →
      jsIncludes (jsToLowerCase text) "暂停生成" = false →
      jsIncludes (jsToLowerCase text) "验证码" = false →
      jsIncludes (jsToLowerCase text) "captcha" = false →
      jsIncludes (jsToLowerCase text) "人机验证" = false →
      jsIncludes (jsToLowerCase text) "verify" = false →
      detectRiskOutcomeFromResponse text = RiskOutcomeKind.success) ∧
    (∀ (s : ProviderRiskState) (policy : ProviderRiskPolicy) (nowMs : Int)
        (message : String),
      (recordRiskOutcome s policy nowMs RiskOutcomeKind.success
        message).consecutiveRiskEvents = 0) := by
  refine ⟨?_, ?_, ?_⟩
  · intro text
    simp only [detectRiskOutcomeFromResponse]
    split_ifs <;> simp
  · intro text h1 h2 h3 h4 h5 h6
    simp only [detectRiskOutcomeFromResponse]
    simp [h1, h2, h3, h4, h5, h6]
  · intro s policy nowMs message
    rw [recordRiskOutcome_consecutive]
    simp [isRiskOutcome]

/-- Witness for claim C9: a benign captured text is classified success. -/
theorem c9_witness :
    detectRiskOutcomeFromResponse "The answer is 42." = RiskOutcomeKind.success :=
  c9_response_classifier.2.1 "The answer is 42." (by decide) (by decide)
    (by decide) (by decide) (by decide) (by decide)

/-- Claim C3 counterexample: a runChat invocation whose browser launch fails
throws the launch error without any recordOutcome call — the launch catch
block updates the session and records a telemetry event only, so this failure
path skips the outcome record the claim requires. -/
theorem c3_counterexample :
    (runChat
      { providerName := "yuanbao"
        displayName := "Yuanbao"
        guardDecision := { allowed := true, message := none, waitMs := none }
        launchResult := Except.error "Browser executable not found"
        loggedIn := true
        captureResult := Except.ok { text := "ok", truncated := false } }).result =
      Except.error "Browser executable not found" ∧
    (runChat
      { providerName := "yuanbao"
        displayName := "Yuanbao"
        guardDecision := { allowed := true, message := none, waitMs := none }
        launchResult := Except.error "Browser executable not found"
        loggedIn := true
        captureResult := Except.ok { text := "ok", truncated := false } }).recordedOutcomes =
      ([] : List RiskOutcomeKind) := by
  exact ⟨rfl, rfl⟩

/-- Claim C3 (amended): once the browser launch has succeeded, every runChat
failure — login, submission or capture — records exactly one outcome
classified from the thrown error before the error propagates; the guard-denial
path and the browser-launch failure path, however, propagate without recording
an outcome. -/
theorem c3_outcome_recorded_after_launch (env : RunChatEnv) (e : String)
    (hallow : env.guardDecision.allowed = true)
    (hlaunch : env.launchResult = Except.ok ())
    (herr : (runChat env).result = Except.error e) :
    (runChat env).recordedOutcomes = [detectRiskOutcomeFromError e] := by
  simp only [runChat, hallow, hlaunch] at herr ⊢
  by_cases hl : env.loggedIn = false
  · simp only [hl] at herr ⊢
    simp at herr
    simp [herr]
  · have hl2 : env.loggedIn = true := by
      cases h : env.loggedIn
      · exact absurd h hl
      · rfl
    simp only [hl2] at herr ⊢
    cases hcap : env.captureResult with
    | error e2 =>
      rw [hcap] at herr
      simp at herr
      simp [herr]
    | ok captured =>
      rw [hcap] at herr
      simp at herr

/-- Witness for claim C3: a capture-stage failure after a successful launch
records exactly the outcome classified from the capture error. -/
theorem c3_witness :
    (runChat
      { providerName := "deepseek"
        displayName := "DeepSeek"
        guardDecision := { allowed := true, message := none, waitMs := none }
        launchResult := Except.ok ()
        loggedIn := true
        captureResult :=
          Except.error "Timed out waiting for DeepSeek assistant response" }).recordedOutcomes =
      [detectRiskOutcomeFromError "Timed out waiting for DeepSeek assistant response"] :=
  c3_outcome_recorded_after_launch _ _ rfl rfl rfl

/-! ## Helper lemmas: streaming chunks -/

theorem string_eq_of_data_eq {a b : String} (h : a.data = b.data) : a = b := by
  cases a; cases b; exact congrArg String.mk h

theorem string_eq_empty_of_length_eq_zero {s : String} (h : s.length = 0) :
    s = "" := by
  cases s with
  | mk l =>
    cases l with
    | nil => rfl
    | cons c cs => simp [String.length] at h

theorem jsStartsWith_append (ans last : String)
    (h : jsStartsWith ans last = true) :
    last ++ jsSliceFrom ans last.length = ans := by
  have hpre : last.data <+: ans.data := List.isPrefixOf_iff_prefix.mp h
  rcases hpre with ⟨t, ht⟩
  apply string_eq_of_data_eq
  rw [String.data_append]
  show last.data ++ (ans.data.drop last.length) = ans.data
  have hlen : last.length = last.data.length := rfl
  rw [hlen, ← ht, List.drop_left]

theorem concatChunks_append (a b : List String) :
    concatChunks (a ++ b) = concatChunks a ++ concatChunks b := by
  induction a with
  | nil => simp [concatChunks, String.empty_append]
  | cons x xs ih =>
    simp only [List.cons_append, concatChunks, List.foldr_cons] at *
    rw [ih, String.append_assoc]

theorem concatChunks_single (c : String) : concatChunks [c] = c := by
  simp [concatChunks, String.append_empty]

theorem streamNext_concat (last ans : String) :
    (streamNext last ans).1 = last ++ concatChunks (streamNext last ans).2 := by
  unfold streamNext
  split_ifs with h1 h2
  · rw [concatChunks_single]
    exact (jsStartsWith_append ans last h1.2).symm
  · rw [concatChunks_single]
    rw [string_eq_empty_of_length_eq_zero h2.1, String.empty_append]
  · simp [concatChunks, String.append_empty]

theorem streamNext_emit (last ans newLast c : String)
    (h : streamNext last ans = (newLast, [c])) :
    newLast = ans ∧ last ++ c = ans ∧ c ≠ "" ∧
      last.length < ans.length ∧ jsStartsWith ans last = true := by
  unfold streamNext at h
  split_ifs at h with h1 h2
  · rcases h1 with ⟨hlen, hpre⟩
    injection h with hfst hsnd
    injection hsnd with hc _
    subst hfst; subst hc
    refine ⟨rfl, jsStartsWith_append ans last hpre, ?_, hlen, hpre⟩
    intro hc
    have : last ++ jsSliceFrom ans last.length = ans := jsStartsWith_append ans last hpre
    rw [hc, String.append_empty] at this
    rw [← this] at hlen
    exact lt_irrefl _ hlen
  · rcases h2 with ⟨hzero, hpos⟩
    injection h with hfst hsnd
    injection hsnd with hc _
    subst hfst; subst hc
    have hlast : last = "" := string_eq_empty_of_length_eq_zero hzero
    subst hlast
    refine ⟨rfl, String.empty_append _, ?_, by simpa using hpos, ?_⟩
    · intro hc
      rw [hc] at hpos
      simp [String.length] at hpos
    · simp [jsStartsWith, List.isPrefixOf]
  · cases h

theorem streamNext_noemit (last ans newLast : String)
    (h : streamNext last ans = (newLast, [])) :
    newLast = last ∧ ¬(last.length < ans.length ∧ jsStartsWith ans last = true) := by
  unfold streamNext at h
  split_ifs at h with h1 h2
  · cases h
  · cases h
  · injection h with hfst _
    exact ⟨hfst.symm, h1⟩

theorem yuanbaoStep_stream (base : String)
    (s : CaptureState YuanbaoTurnSnapshot YuanbaoTurnSnapshot)
    (p : YuanbaoTurnSnapshot)
    (h : concatChunks s.chunks = s.lastStreamedAnswer) :
    concatChunks ((yuanbaoStep base s p).1).chunks =
      ((yuanbaoStep base s p).1).lastStreamedAnswer := by
  simp only [yuanbaoStep]
  split_ifs <;> dsimp only <;>
    first
      | exact h
      | (rw [concatChunks_append, h]; exact (streamNext_concat _ _).symm)

theorem deepseekStep_stream (base : String)
    (s : CaptureState DeepseekTurnSnapshot DeepseekPoll) (p : DeepseekPoll)
    (h : concatChunks s.chunks = s.lastStreamedAnswer) :
    concatChunks ((deepseekStep base s p).1).chunks =
      ((deepseekStep base s p).1).lastStreamedAnswer := by
  simp only [deepseekStep]
  split_ifs <;> dsimp only <;>
    first
      | exact h
      | (rw [concatChunks_append, h]; exact (streamNext_concat _ _).symm)

theorem doubaoStep_stream (base : String)
    (s : CaptureState DoubaoTurnSnapshot DoubaoPoll) (p : DoubaoPoll)
    (h : concatChunks s.chunks = s.lastStreamedAnswer) :
    concatChunks ((doubaoStep base s p).1).chunks =
      ((doubaoStep base s p).1).lastStreamedAnswer := by
  simp only [doubaoStep]
  split_ifs <;> dsimp only <;>
    first
      | exact h
      | (rw [concatChunks_append, h]; exact (streamNext_concat _ _).symm)

theorem yuanbaoLoop_stream (base : String) (polls : List YuanbaoTurnSnapshot) :
    ∀ s : CaptureState YuanbaoTurnSnapshot YuanbaoTurnSnapshot,
    concatChunks s.chunks = s.lastStreamedAnswer →
    concatChunks ((yuanbaoLoop base s polls).1).chunks =
      ((yuanbaoLoop base s polls).1).lastStreamedAnswer := by
  induction polls with
  | nil => intro s h; exact h
  | cons p rest ih =>
    intro s h
    have h2 := yuanbaoStep_stream base s p h
    rcases hstep : yuanbaoStep base s p with ⟨s2, done⟩
    rw [hstep] at h2
    cases done
    · simp only [yuanbaoLoop, hstep]
      exact ih s2 h2
    · simp only [yuanbaoLoop, hstep]
      exact h2

theorem deepseekLoop_stream (base : String) (polls : List DeepseekPoll) :
    ∀ s : CaptureState DeepseekTurnSnapshot DeepseekPoll,
    concatChunks s.chunks = s.lastStreamedAnswer →
    concatChunks ((deepseekLoop base s polls).1).chunks =
      ((deepseekLoop base s polls).1).lastStreamedAnswer := by
  induction polls with
  | nil => intro s h; exact h
  | cons p rest ih =>
    intro s h
    have h2 := deepseekStep_stream base s p h
    rcases hstep : deepseekStep base s p with ⟨s2, done⟩
    rw [hstep] at h2
    cases done
    · simp only [deepseekLoop, hstep]
      exact ih s2 h2
    · simp only [deepseekLoop, hstep]
      exact h2

theorem doubaoLoop_stream (base : String) (polls : List DoubaoPoll) :
    ∀ s : CaptureState DoubaoTurnSnapshot DoubaoPoll,
    concatChunks s.chunks = s.lastStreamedAnswer →
    concatChunks ((doubaoLoop base s polls).1).chunks =
      ((doubaoLoop base s polls).1).lastStreamedAnswer := by
  induction polls with
  | nil => intro s h; exact h
  | cons p rest ih =>
    intro s h
    have h2 := doubaoStep_stream base s p h
    rcases hstep : doubaoStep base s p with ⟨s2, done⟩
    rw [hstep] at h2
    cases done
    · simp only [doubaoLoop, hstep]
      exact ih s2 h2
    · simp only [doubaoLoop, hstep]
      exact h2

/-- Claim C10: a chunk is handed to onChunk exactly when the new answer text
strictly extends the previously streamed text (with the first non-empty text
as the degenerate extension of the empty string); the chunk is exactly the new
suffix and is non-empty; nothing is emitted on a non-extending change; and in
every capture run of the yuanbao, deepseek and doubao providers the
concatenation of all emitted chunks equals the last streamed answer text. -/
theorem c10_stream_prefix_chain :
    (∀ last ans newLast c : String, streamNext last ans = (newLast, [c]) →
      newLast = ans ∧ last ++ c = ans ∧ c ≠ "" ∧
        last.length < ans.length ∧ jsStartsWith ans last = true) ∧
    (∀ last ans newLast : String, streamNext last ans = (newLast, []) →
      newLast = last ∧
        ¬(last.length < ans.length ∧ jsStartsWith ans last = true)) ∧
    (∀ (b : YuanbaoTurnSnapshot) (polls : List YuanbaoTurnSnapshot),
      concatChunks (yuanbaoCaptureRun b polls).chunks =
        (yuanbaoCaptureRun b polls).lastStreamedAnswer) ∧
    (∀ (b : DeepseekTurnSnapshot) (polls : List DeepseekPoll),
      concatChunks (deepseekCaptureRun b polls).chunks =
        (deepseekCaptureRun b polls).lastStreamedAnswer) ∧
    (∀ (b : DoubaoTurnSnapshot) (polls : List DoubaoPoll),
      concatChunks (doubaoCaptureRun b polls).chunks =
        (doubaoCaptureRun b polls).lastStreamedAnswer) := by
  refine ⟨streamNext_emit, streamNext_noemit, ?_, ?_, ?_⟩
  · intro b polls
    exact yuanbaoLoop_stream (yuanbaoTurnSignature b) polls
      (initCaptureState b (yuanbaoTurnSignature b)) rfl
  · intro b polls
    exact deepseekLoop_stream (deepseekTurnSignature b) polls
      (initCaptureState b (deepseekTurnSignature b)) rfl
  · intro b polls
    exact doubaoLoop_stream (doubaoTurnSignature b) polls
      (initCaptureState b (doubaoTurnSignature b)) rfl

/-- Witness for claim C10: streaming "abc" after "ab" emits exactly the suffix. -/
theorem c10_witness :
    ("abc" : String) = "abc" ∧ ("ab" : String) ++ "c" = "abc" ∧
      ("c" : String) ≠ "" ∧ ("ab" : String).length < ("abc" : String).length ∧
      jsStartsWith "abc" "ab" = true :=
  c10_stream_prefix_chain.1 "ab" "abc" "abc" "c" (by decide)

/-! ## Helper lemmas: runs where no poll differs from the baseline -/

theorem yuanbaoStep_no_new (base : String)
    (s : CaptureState YuanbaoTurnSnapshot YuanbaoTurnSnapshot)
    (p : YuanbaoTurnSnapshot) (hsaw : s.sawNewTurn = false)
    (hsig : yuanbaoTurnSignature p = base) :
    yuanbaoStep base s p = ({ s with seen := s.seen ++ [p] }, false) := by
  simp only [yuanbaoStep]
  rw [if_neg]
  intro hor
  rcases hor with h | h
  · rw [hsaw] at h; cases h
  · exact h hsig

theorem deepseekStep_no_new (base : String)
    (s : CaptureState DeepseekTurnSnapshot DeepseekPoll)
    (p : DeepseekPoll) (hsaw : s.sawNewTurn = false)
    (hsig : deepseekTurnSignature p.snapshot = base) :
    deepseekStep base s p = ({ s with seen := s.seen ++ [p] }, false) := by
  simp only [deepseekStep]
  rw [if_neg]
  intro hor
  rcases hor with h | h
  · rw [hsaw] at h; cases h
  · exact h hsig

theorem yuanbaoLoop_no_new (base : String) (polls : List YuanbaoTurnSnapshot) :
    ∀ s : CaptureState YuanbaoTurnSnapshot YuanbaoTurnSnapshot,
    s.sawNewTurn = false →
    (∀ p ∈ polls, yuanbaoTurnSignature p = base) →
    yuanbaoLoop base s polls = ({ s with seen := s.seen ++ polls }, false) := by
  induction polls with
  | nil => intro s h1 h2; simp [yuanbaoLoop]
  | cons p rest ih =>
    intro s h1 h2
    simp only [yuanbaoLoop, yuanbaoStep_no_new base s p h1 (h2 p (by simp))]
    rw [ih { s with seen := s.seen ++ [p] } h1
      (fun q hq => h2 q (by simp [hq]))]
    simp

theorem deepseekLoop_no_new (base : String) (polls : List DeepseekPoll) :
    ∀ s : CaptureState DeepseekTurnSnapshot DeepseekPoll,
    s.sawNewTurn = false →
    (∀ p ∈ polls, deepseekTurnSignature p.snapshot = base) →
    deepseekLoop base s polls = ({ s with seen := s.seen ++ polls }, false) := by
  induction polls with
  | nil => intro s h1 h2; simp [deepseekLoop]
  | cons p rest ih =>
    intro s h1 h2
    simp only [deepseekLoop, deepseekStep_no_new base s p h1 (h2 p (by simp))]
    rw [ih { s with seen := s.seen ++ [p] } h1
      (fun q hq => h2 q (by simp [hq]))]
    simp

theorem deepseekStep_saw (base : String)
    (s : CaptureState DeepseekTurnSnapshot DeepseekPoll) (p : DeepseekPoll)
    (h : s.sawNewTurn = false → s.lastStreamedAnswer = "") :
    (deepseekStep base s p).1.sawNewTurn = false →
      (deepseekStep base s p).1.lastStreamedAnswer = "" := by
  simp only [deepseekStep]
  split_ifs <;> dsimp only <;> intro hf <;>
    first
      | exact h hf
      | simp at hf

theorem deepseekLoop_saw (base : String) (polls : List DeepseekPoll) :
    ∀ s : CaptureState DeepseekTurnSnapshot DeepseekPoll,
    (s.sawNewTurn = false → s.lastStreamedAnswer = "") →
    ((deepseekLoop base s polls).1.sawNewTurn = false →
      (deepseekLoop base s polls).1.lastStreamedAnswer = "") := by
  induction polls with
  | nil => intro s h; exact h
  | cons p rest ih =>
    intro s h
    have h2 := deepseekStep_saw base s p h
    rcases hstep : deepseekStep base s p with ⟨s2, done⟩
    rw [hstep] at h2
    cases done
    · simp only [deepseekLoop, hstep]
      exact ih s2 h2
    · simp only [deepseekLoop, hstep]
      exact h2

theorem deepseekCaptureRun_saw (b : DeepseekTurnSnapshot)
    (polls : List DeepseekPoll) :
    (deepseekCaptureRun b polls).sawNewTurn = false →
      (deepseekCaptureRun b polls).lastStreamedAnswer = "" := by
  simp only [deepseekCaptureRun]
  exact deepseekLoop_saw (deepseekTurnSignature b) polls
    (initCaptureState b (deepseekTurnSignature b)) (fun _ => rfl)

/-- Claim C2 counterexample: a yuanbao captureResponse call in which every
polled snapshot equals the baseline returns normally — sawNewTurn stays false,
so the source takes the branch returning text and markdown as the empty
string with truncated = false — instead of failing with the hard no-response
error the claim requires. -/
theorem c2_counterexample :
    (yuanbaoCaptureRun ⟨"prev", false, []⟩
      [⟨"prev", false, []⟩, ⟨"prev", false, []⟩, ⟨"prev", false, []⟩]).sawNewTurn
      = false ∧
    (yuanbaoCaptureRun ⟨"prev", false, []⟩
      [⟨"prev", false, []⟩, ⟨"prev", false, []⟩, ⟨"prev", false, []⟩]).truncated
      = false ∧
    (yuanbaoCaptureRun ⟨"prev", false, []⟩
      [⟨"prev", false, []⟩, ⟨"prev", false, []⟩, ⟨"prev", false, []⟩]).completed
      = false := by
  refine ⟨?_, ?_, ?_⟩ <;> decide

/-- Claim C2 (amended): when no polled snapshot ever differs from the baseline
before the timeout, DeepSeek's captureResponse fails with the hard no-response
error, but Yuanbao's returns a normal result with no new turn seen and
truncated = false (the source then returns empty text rather than throwing);
for both providers a truncated result is returned only when a new turn was
observed. -/
theorem c2_no_response :
    (∀ (b : DeepseekTurnSnapshot) (polls : List DeepseekPoll),
      (∀ p ∈ polls, deepseekTurnSignature p.snapshot = deepseekTurnSignature b) →
      deepseekCaptureResponse b polls =
        Except.error "Timed out waiting for DeepSeek assistant response") ∧
    (∀ (b : YuanbaoTurnSnapshot) (polls : List YuanbaoTurnSnapshot),
      (∀ p ∈ polls, yuanbaoTurnSignature p = yuanbaoTurnSignature b) →
      (yuanbaoCaptureRun b polls).sawNewTurn = false ∧
      (yuanbaoCaptureRun b polls).truncated = false ∧
      (yuanbaoCaptureRun b polls).completed = false) ∧
    (∀ (b : YuanbaoTurnSnapshot) (polls : List YuanbaoTurnSnapshot),
      (yuanbaoCaptureRun b polls).truncated = true →
      (yuanbaoCaptureRun b polls).sawNewTurn = true) ∧
    (∀ (b : DeepseekTurnSnapshot) (polls : List DeepseekPoll)
        (r : CaptureOutcome DeepseekTurnSnapshot DeepseekPoll),
      deepseekCaptureResponse b polls = Except.ok r → r.sawNewTurn = true) := by
  refine ⟨?_, ?_, ?_, ?_⟩
  · intro b polls h
    have hloop := deepseekLoop_no_new (deepseekTurnSignature b) polls
      (initCaptureState b (deepseekTurnSignature b)) rfl h
    simp only [deepseekCaptureResponse, deepseekCaptureRun, hloop]
    simp [initCaptureState]
  · intro b polls h
    have hloop := yuanbaoLoop_no_new (yuanbaoTurnSignature b) polls
      (initCaptureState b (yuanbaoTurnSignature b)) rfl h
    simp only [yuanbaoCaptureRun, hloop]
    simp [initCaptureState]
  · intro b polls h
    simp only [yuanbaoCaptureRun] at h ⊢
    simp only [Bool.and_eq_true] at h
    exact h.2
  · intro b polls r h
    simp only [deepseekCaptureResponse] at h
    by_cases hcond : (deepseekCaptureRun b polls).sawNewTurn = false ∧
        (deepseekCaptureRun b polls).lastStreamedAnswer.length = 0
    · rw [if_pos hcond] at h; cases h
    · rw [if_neg hcond] at h
      injection h with hr
      subst hr
      cases hs : (deepseekCaptureRun b polls).sawNewTurn
      · exact absurd ⟨hs, by rw [deepseekCaptureRun_saw b polls hs]; rfl⟩ hcond
      · rfl

/-- Witness for claim C2: with a baseline answer "x" and three polls whose
signature never changes from the baseline, DeepSeek's captureResponse throws
the hard no-response error. -/
theorem c2_witness :
    deepseekCaptureResponse ⟨"x", 0, []⟩
      [⟨⟨"x", 0, []⟩, false⟩, ⟨⟨"x", 0, []⟩, false⟩, ⟨⟨"x", 0, []⟩, false⟩] =
      Except.error "Timed out waiting for DeepSeek assistant response" :=
  c2_no_response.1 ⟨"x", 0, []⟩
    [⟨⟨"x", 0, []⟩, false⟩, ⟨⟨"x", 0, []⟩, false⟩, ⟨⟨"x", 0, []⟩, false⟩]
    (by intro p hp; fin_cases hp <;> rfl)

theorem doubaoStep_interim (base : String)
    (s : CaptureState DoubaoTurnSnapshot DoubaoPoll) (p : DoubaoPoll)
    (hint : isInterimAnswer p.snapshot.answerText = true) :
    (doubaoStep base s p).2 = false ∧
      (doubaoStep base s p).1.stableCount ≤ s.stableCount := by
  simp only [doubaoStep]
  split_ifs <;> dsimp only <;>
    first
      | exact ⟨rfl, le_refl _⟩
      | exact ⟨rfl, Nat.zero_le _⟩

theorem doubaoLoop_interim (base : String) (polls : List DoubaoPoll) :
    ∀ s : CaptureState DoubaoTurnSnapshot DoubaoPoll,
    s.stableCount = 0 →
    (∀ p ∈ polls, isInterimAnswer p.snapshot.answerText = true) →
    (doubaoLoop base s polls).1.stableCount = 0 ∧
      (doubaoLoop base s polls).2 = false := by
  induction polls with
  | nil => intro s h1 _; exact ⟨h1, rfl⟩
  | cons p rest ih =>
    intro s h1 h2
    have hi := doubaoStep_interim base s p (h2 p (by simp))
    rcases hstep : doubaoStep base s p with ⟨s2, done⟩
    rw [hstep] at hi
    have hle : s2.stableCount ≤ s.stableCount := hi.2
    have hdone : done = false := hi.1
    have hcount : s2.stableCount = 0 := by omega
    subst hdone
    simp only [doubaoLoop, hstep]
    exact ih s2 hcount (fun q hq => h2 q (by simp [hq]))

/-- Claim C8 counterexample: a doubao capture whose first poll shows only the
interim phrase (searching status) still hands that interim text to the onChunk
streaming callback — interim text is not excluded from streaming callbacks. -/
theorem c8_counterexample :
    (doubaoCaptureRun ⟨"", 0, []⟩ [⟨⟨"正在搜索", 1, []⟩, false⟩]).chunks =
      ["正在搜索"] ∧
    isInterimAnswer "正在搜索" = true := by
  refine ⟨?_, ?_⟩ <;> decide

/-- Claim C8 (amended): a poll whose answer text is an interim status phrase
never increments stableCount and never declares completion, and from a fresh
capture an all-interim poll sequence keeps stableCount at 0 without ever
completing — interim text is excluded from stability accounting; it is not,
however, excluded from the streaming callback, which receives interim text
whenever it extends the streamed answer. -/
theorem c8_interim_never_stabilizes :
    (∀ (base : String) (s : CaptureState DoubaoTurnSnapshot DoubaoPoll)
        (p : DoubaoPoll),
      isInterimAnswer p.snapshot.answerText = true →
      (doubaoStep base s p).2 = false ∧
      (doubaoStep base s p).1.stableCount ≤ s.stableCount) ∧
    (∀ (b : DoubaoTurnSnapshot) (polls : List DoubaoPoll),
      (∀ p ∈ polls, isInterimAnswer p.snapshot.answerText = true) →
      (doubaoCaptureRun b polls).stableCount = 0 ∧
      (doubaoCaptureRun b polls).completed = false) := by
  refine ⟨doubaoStep_interim, ?_⟩
  intro b polls h
  have := doubaoLoop_interim (doubaoTurnSignature b) polls
    (initCaptureState b (doubaoTurnSignature b)) rfl h
  simpa only [doubaoCaptureRun] using this

/-- Witness for claim C8: three consecutive polls repeating the interim
searching phrase leave stableCount at 0 and the capture uncompleted. -/
theorem c8_witness :
    (doubaoCaptureRun ⟨"", 0, []⟩
      [⟨⟨"正在搜索", 1, []⟩, false⟩, ⟨⟨"正在搜索", 1, []⟩, false⟩,
        ⟨⟨"正在搜索", 1, []⟩, false⟩]).stableCount = 0 ∧
    (doubaoCaptureRun ⟨"", 0, []⟩
      [⟨⟨"正在搜索", 1, []⟩, false⟩, ⟨⟨"正在搜索", 1, []⟩, false⟩,
        ⟨⟨"正在搜索", 1, []⟩, false⟩]).completed = false :=
  c8_interim_never_stabilizes.2 ⟨"", 0, []⟩
    [⟨⟨"正在搜索", 1, []⟩, false⟩, ⟨⟨"正在搜索", 1, []⟩, false⟩,
      ⟨⟨"正在搜索", 1, []⟩, false⟩] (by decide)

/-! ## Helper lemmas: stability accounting (claim C1) -/

theorem string_ne_empty_of_length_pos {s : String} (h : 0 < s.length) :
    s ≠ "" := by
  intro hc
  rw [hc] at h
  simp [String.length] at h

theorem string_length_pos_of_ne_empty {s : String} (h : s ≠ "") :
    0 < s.length := by
  cases hl : s.length
  · exact absurd (string_eq_empty_of_length_eq_zero hl) h
  · omega

theorem yuanbaoLoop_cons (base : String)
    (s : CaptureState YuanbaoTurnSnapshot YuanbaoTurnSnapshot)
    (p : YuanbaoTurnSnapshot) (rest : List YuanbaoTurnSnapshot) :
    yuanbaoLoop base s (p :: rest) =
      (if (yuanbaoStep base s p).2 = true then ((yuanbaoStep base s p).1, true)
        else yuanbaoLoop base (yuanbaoStep base s p).1 rest) := by
  simp only [yuanbaoLoop]
  rcases h : yuanbaoStep base s p with ⟨s2, done⟩
  cases done <;> simp

theorem deepseekLoop_cons (base : String)
    (s : CaptureState DeepseekTurnSnapshot DeepseekPoll)
    (p : DeepseekPoll) (rest : List DeepseekPoll) :
    deepseekLoop base s (p :: rest) =
      (if (deepseekStep base s p).2 = true then ((deepseekStep base s p).1, true)
        else deepseekLoop base (deepseekStep base s p).1 rest) := by
  simp only [deepseekLoop]
  rcases h : deepseekStep base s p with ⟨s2, done⟩
  cases done <;> simp

theorem yuanbaoStep_stable (base : String)
    (s : CaptureState YuanbaoTurnSnapshot YuanbaoTurnSnapshot)
    (p : YuanbaoTurnSnapshot) (hsaw : s.sawNewTurn = true)
    (hsig : yuanbaoTurnSignature p = s.lastSignature) :
    (yuanbaoStep base s p).1.stableCount = s.stableCount + 1 ∧
    (yuanbaoStep base s p).1.lastSignature = s.lastSignature ∧
    (yuanbaoStep base s p).1.sawNewTurn = true ∧
    (yuanbaoStep base s p).2 =
      decide (2 ≤ s.stableCount + 1 ∧ 0 < p.answerText.length) := by
  simp only [yuanbaoStep]
  rw [if_pos (Or.inl hsaw), if_pos hsig]
  exact ⟨rfl, rfl, rfl, rfl⟩

theorem yuanbaoStep_reset (base : String)
    (s : CaptureState YuanbaoTurnSnapshot YuanbaoTurnSnapshot)
    (p : YuanbaoTurnSnapshot)
    (hcond : s.sawNewTurn = true ∨ yuanbaoTurnSignature p ≠ base)
    (hsig : yuanbaoTurnSignature p ≠ s.lastSignature) :
    (yuanbaoStep base s p).1.stableCount = 0 ∧
    (yuanbaoStep base s p).1.lastSignature = yuanbaoTurnSignature p ∧
    (yuanbaoStep base s p).1.sawNewTurn = true ∧
    (yuanbaoStep base s p).2 = false := by
  simp only [yuanbaoStep]
  rw [if_pos hcond, if_neg hsig]
  exact ⟨rfl, rfl, rfl, rfl⟩

theorem deepseekStep_stable (base : String)
    (s : CaptureState DeepseekTurnSnapshot DeepseekPoll) (p : DeepseekPoll)
    (hsaw : s.sawNewTurn = true)
    (hsig : deepseekTurnSignature p.snapshot = s.lastSignature)
    (hstop : p.stopButtonVisible = false) :
    (deepseekStep base s p).1.stableCount = s.stableCount + 1 ∧
    (deepseekStep base s p).1.lastSignature = s.lastSignature ∧
    (deepseekStep base s p).1.sawNewTurn = true ∧
    (deepseekStep base s p).2 = decide (3 ≤ s.stableCount + 1) := by
  simp only [deepseekStep]
  rw [if_pos (Or.inl hsaw), if_pos hsig, if_neg]
  · exact ⟨rfl, rfl, rfl, rfl⟩
  · rw [hstop]; simp

theorem deepseekStep_reset (base : String)
    (s : CaptureState DeepseekTurnSnapshot DeepseekPoll) (p : DeepseekPoll)
    (hcond : s.sawNewTurn = true ∨ deepseekTurnSignature p.snapshot ≠ base)
    (hsig : deepseekTurnSignature p.snapshot ≠ s.lastSignature) :
    (deepseekStep base s p).1.stableCount = 0 ∧
    (deepseekStep base s p).1.lastSignature = deepseekTurnSignature p.snapshot ∧
    (deepseekStep base s p).1.sawNewTurn = true ∧
    (deepseekStep base s p).2 = false := by
  simp only [deepseekStep]
  rw [if_pos hcond, if_neg hsig]
  exact ⟨rfl, rfl, rfl, rfl⟩

theorem yuanbaoLoop_streak (base : String)
    (st : CaptureState YuanbaoTurnSnapshot YuanbaoTurnSnapshot)
    (s : YuanbaoTurnSnapshot) (rest : List YuanbaoTurnSnapshot)
    (hsaw : st.sawNewTurn = true) (hsig : st.lastSignature = yuanbaoTurnSignature s)
    (hcount : st.stableCount = 0) (hlen : 0 < s.answerText.length) :
    (yuanbaoLoop base st (s :: s :: rest)).2 = true := by
  rw [yuanbaoLoop_cons]
  have h1 := yuanbaoStep_stable base st s hsaw hsig.symm
  have hflag1 : (yuanbaoStep base st s).2 = false := by
    rw [h1.2.2.2, hcount]; rfl
  rw [hflag1]
  simp only [Bool.false_eq_true, if_false]
  rw [yuanbaoLoop_cons]
  have h2 := yuanbaoStep_stable base (yuanbaoStep base st s).1 s h1.2.2.1
    (by rw [h1.2.1, hsig])
  have hflag2 : (yuanbaoStep base (yuanbaoStep base st s).1 s).2 = true := by
    rw [h2.2.2.2, h1.1, hcount]
    simp [hlen]
  rw [hflag2]
  simp

theorem yuanbaoRun_completes (b s : YuanbaoTurnSnapshot)
    (rest : List YuanbaoTurnSnapshot)
    (hne : yuanbaoTurnSignature s ≠ yuanbaoTurnSignature b)
    (hans : s.answerText ≠ "") :
    (yuanbaoCaptureRun b (s :: s :: s :: rest)).completed = true := by
  have hlen := string_length_pos_of_ne_empty hans
  show (yuanbaoLoop (yuanbaoTurnSignature b)
    (initCaptureState b (yuanbaoTurnSignature b)) (s :: s :: s :: rest)).2 = true
  rw [yuanbaoLoop_cons]
  have hr1 := yuanbaoStep_reset (yuanbaoTurnSignature b)
    (initCaptureState b (yuanbaoTurnSignature b)) s (Or.inr hne) hne
  rw [hr1.2.2.2]
  simp only [Bool.false_eq_true, if_false]
  exact yuanbaoLoop_streak (yuanbaoTurnSignature b) _ s rest hr1.2.2.1 hr1.2.1
    hr1.1 hlen

theorem yuanbaoRun_two_polls (b s : YuanbaoTurnSnapshot)
    (hne : yuanbaoTurnSignature s ≠ yuanbaoTurnSignature b) :
    (yuanbaoCaptureRun b [s, s]).completed = false := by
  show (yuanbaoLoop (yuanbaoTurnSignature b)
    (initCaptureState b (yuanbaoTurnSignature b)) [s, s]).2 = false
  rw [yuanbaoLoop_cons]
  have hr1 := yuanbaoStep_reset (yuanbaoTurnSignature b)
    (initCaptureState b (yuanbaoTurnSignature b)) s (Or.inr hne) hne
  rw [hr1.2.2.2]
  simp only [Bool.false_eq_true, if_false]
  rw [yuanbaoLoop_cons]
  have h2 := yuanbaoStep_stable (yuanbaoTurnSignature b) _ s hr1.2.2.1 hr1.2.1.symm
  have hflag2 : (yuanbaoStep (yuanbaoTurnSignature b)
      (yuanbaoStep (yuanbaoTurnSignature b)
        (initCaptureState b (yuanbaoTurnSignature b)) s).1 s).2 = false := by
    rw [h2.2.2.2, hr1.1]; rfl
  rw [hflag2]
  simp [yuanbaoLoop]

theorem deepseekLoop_streak (base : String)
    (st : CaptureState DeepseekTurnSnapshot DeepseekPoll)
    (s : DeepseekTurnSnapshot) (rest : List DeepseekPoll)
    (hsaw : st.sawNewTurn = true)
    (hsig : st.lastSignature = deepseekTurnSignature s)
    (hcount : st.stableCount = 0) :
    (deepseekLoop base st (⟨s, false⟩ :: ⟨s, false⟩ :: ⟨s, false⟩ :: rest)).2
      = true := by
  rw [deepseekLoop_cons]
  have h1 := deepseekStep_stable base st ⟨s, false⟩ hsaw hsig.symm rfl
  have hflag1 : (deepseekStep base st ⟨s, false⟩).2 = false := by
    rw [h1.2.2.2, hcount]; rfl
  rw [hflag1]
  simp only [Bool.false_eq_true, if_false]
  rw [deepseekLoop_cons]
  have h2 := deepseekStep_stable base (deepseekStep base st ⟨s, false⟩).1
    ⟨s, false⟩ h1.2.2.1 (by rw [h1.2.1, hsig]) rfl
  have hflag2 : (deepseekStep base (deepseekStep base st ⟨s, false⟩).1
      ⟨s, false⟩).2 = false := by
    rw [h2.2.2.2, h1.1, hcount]; rfl
  rw [hflag2]
  simp only [Bool.false_eq_true, if_false]
  rw [deepseekLoop_cons]
  have h3 := deepseekStep_stable base
    (deepseekStep base (deepseekStep base st ⟨s, false⟩).1 ⟨s, false⟩).1
    ⟨s, false⟩ h2.2.2.1 (by rw [h2.2.1, h1.2.1, hsig]) rfl
  have hflag3 : (deepseekStep base
      (deepseekStep base (deepseekStep base st ⟨s, false⟩).1 ⟨s, false⟩).1
      ⟨s, false⟩).2 = true := by
    rw [h3.2.2.2, h2.1, h1.1, hcount]
    decide
  rw [hflag3]
  simp

theorem deepseekRun_completes (b s : DeepseekTurnSnapshot)
    (rest : List DeepseekPoll)
    (hne : deepseekTurnSignature s ≠ deepseekTurnSignature b) :
    (deepseekCaptureRun b
      (⟨s, false⟩ :: ⟨s, false⟩ :: ⟨s, false⟩ :: ⟨s, false⟩ :: rest)).completed
      = true := by
  show (deepseekLoop (deepseekTurnSignature b)
    (initCaptureState b (deepseekTurnSignature b))
    (⟨s, false⟩ :: ⟨s, false⟩ :: ⟨s, false⟩ :: ⟨s, false⟩ :: rest)).2 = true
  rw [deepseekLoop_cons]
  have hr1 := deepseekStep_reset (deepseekTurnSignature b)
    (initCaptureState b (deepseekTurnSignature b)) ⟨s, false⟩ (Or.inr hne) hne
  rw [hr1.2.2.2]
  simp only [Bool.false_eq_true, if_false]
  exact deepseekLoop_streak (deepseekTurnSignature b) _ s rest hr1.2.2.1
    hr1.2.1 hr1.1

theorem deepseekRun_three_polls (b s : DeepseekTurnSnapshot)
    (hne : deepseekTurnSignature s ≠ deepseekTurnSignature b) :
    (deepseekCaptureRun b [⟨s, false⟩, ⟨s, false⟩, ⟨s, false⟩]).completed
      = false := by
  show (deepseekLoop (deepseekTurnSignature b)
    (initCaptureState b (deepseekTurnSignature b))
    [⟨s, false⟩, ⟨s, false⟩, ⟨s, false⟩]).2 = false
  rw [deepseekLoop_cons]
  have hr1 := deepseekStep_reset (deepseekTurnSignature b)
    (initCaptureState b (deepseekTurnSignature b)) ⟨s, false⟩ (Or.inr hne) hne
  rw [hr1.2.2.2]
  simp only [Bool.false_eq_true, if_false]
  rw [deepseekLoop_cons]
  have h2 := deepseekStep_stable (deepseekTurnSignature b) _ ⟨s, false⟩
    hr1.2.2.1 hr1.2.1.symm rfl
  have hflag2 : (deepseekStep (deepseekTurnSignature b)
      (deepseekStep (deepseekTurnSignature b)
        (initCaptureState b (deepseekTurnSignature b)) ⟨s, false⟩).1
      ⟨s, false⟩).2 = false := by
    rw [h2.2.2.2, hr1.1]; rfl
  rw [hflag2]
  simp only [Bool.false_eq_true, if_false]
  rw [deepseekLoop_cons]
  have h3 := deepseekStep_stable (deepseekTurnSignature b) _ ⟨s, false⟩
    h2.2.2.1 (by rw [h2.2.1, hr1.2.1]) rfl
  have hflag3 : (deepseekStep (deepseekTurnSignature b)
      (deepseekStep (deepseekTurnSignature b)
        (deepseekStep (deepseekTurnSignature b)
          (initCaptureState b (deepseekTurnSignature b)) ⟨s, false⟩).1
        ⟨s, false⟩).1 ⟨s, false⟩).2 = false := by
    rw [h3.2.2.2, h2.1, hr1.1]; rfl
  rw [hflag3]
  simp [deepseekLoop]

theorem yuanbaoStep_suffix (base : String)
    (s : CaptureState YuanbaoTurnSnapshot YuanbaoTurnSnapshot)
    (p : YuanbaoTurnSnapshot)
    (hex : ∃ pre mid, s.seen = pre ++ mid ∧ s.stableCount ≤ mid.length ∧
      ∀ q ∈ mid, yuanbaoTurnSignature q = s.lastSignature)
    (hz : s.sawNewTurn = false → s.stableCount = 0) :
    (∃ pre mid, (yuanbaoStep base s p).1.seen = pre ++ mid ∧
      (yuanbaoStep base s p).1.stableCount ≤ mid.length ∧
      ∀ q ∈ mid, yuanbaoTurnSignature q = (yuanbaoStep base s p).1.lastSignature) ∧
    ((yuanbaoStep base s p).1.sawNewTurn = false →
      (yuanbaoStep base s p).1.stableCount = 0) := by
  simp only [yuanbaoStep]
  split_ifs with h1 h2
  · dsimp only
    constructor
    · obtain ⟨pre, mid, hseen, hlen, hsig⟩ := hex
      refine ⟨pre, mid ++ [p], ?_, ?_, ?_⟩
      · rw [hseen, List.append_assoc]
      · simp only [List.length_append, List.length_cons, List.length_nil]
        omega
      · intro q hq
        rcases List.mem_append.mp hq with hq | hq
        · exact hsig q hq
        · simp at hq; subst hq; exact h2
    · intro hf; simp at hf
  · dsimp only
    refine ⟨⟨s.seen, [p], rfl, by simp, ?_⟩, ?_⟩
    · intro q hq; simp at hq; subst hq; rfl
    · intro hf; simp at hf
  · dsimp only
    have hsawf : s.sawNewTurn = false := by
      push_neg at h1
      cases hsw : s.sawNewTurn
      · rfl
      · exact absurd hsw h1.1
    refine ⟨⟨s.seen ++ [p], [], by simp, ?_, by simp⟩, fun _ => hz hsawf⟩
    rw [hz hsawf]
    simp

theorem yuanbaoLoop_suffix (base : String) (polls : List YuanbaoTurnSnapshot) :
    ∀ s : CaptureState YuanbaoTurnSnapshot YuanbaoTurnSnapshot,
    (∃ pre mid, s.seen = pre ++ mid ∧ s.stableCount ≤ mid.length ∧
      ∀ q ∈ mid, yuanbaoTurnSignature q = s.lastSignature) →
    (s.sawNewTurn = false → s.stableCount = 0) →
    (∃ pre mid, (yuanbaoLoop base s polls).1.seen = pre ++ mid ∧
      (yuanbaoLoop base s polls).1.stableCount ≤ mid.length ∧
      ∀ q ∈ mid, yuanbaoTurnSignature q =
        (yuanbaoLoop base s polls).1.lastSignature) := by
  induction polls with
  | nil => intro s hex _; exact hex
  | cons p rest ih =>
    intro s hex hz
    have hstepinv := yuanbaoStep_suffix base s p hex hz
    rcases hstep : yuanbaoStep base s p with ⟨s2, done⟩
    rw [hstep] at hstepinv
    cases done
    · simp only [yuanbaoLoop, hstep]
      exact ih s2 hstepinv.1 hstepinv.2
    · simp only [yuanbaoLoop, hstep]
      exact hstepinv.1

theorem yuanbaoStep_done (base : String)
    (s : CaptureState YuanbaoTurnSnapshot YuanbaoTurnSnapshot)
    (p : YuanbaoTurnSnapshot) :
    (yuanbaoStep base s p).2 = true →
    2 ≤ (yuanbaoStep base s p).1.stableCount ∧
      (yuanbaoStep base s p).1.lastSnapshot.answerText ≠ "" := by
  simp only [yuanbaoStep]
  split_ifs with h1 h2 <;> dsimp only <;> intro h
  · rw [decide_eq_true_eq] at h
    exact ⟨h.1, string_ne_empty_of_length_pos h.2⟩
  · rw [decide_eq_true_eq] at h
    exact absurd h.1 (by omega)
  · simp at h

theorem yuanbaoLoop_done (base : String) (polls : List YuanbaoTurnSnapshot) :
    ∀ s : CaptureState YuanbaoTurnSnapshot YuanbaoTurnSnapshot,
    (yuanbaoLoop base s polls).2 = true →
    2 ≤ (yuanbaoLoop base s polls).1.stableCount ∧
      (yuanbaoLoop base s polls).1.lastSnapshot.answerText ≠ "" := by
  induction polls with
  | nil => intro s h; simp [yuanbaoLoop] at h
  | cons p rest ih =>
    intro s
    have hd := yuanbaoStep_done base s p
    rcases hstep : yuanbaoStep base s p with ⟨s2, done⟩
    rw [hstep] at hd
    cases done
    · simp only [yuanbaoLoop, hstep]
      exact ih s2
    · simp only [yuanbaoLoop, hstep]
      intro _
      exact hd rfl

theorem deepseekStep_suffix (base : String)
    (s : CaptureState DeepseekTurnSnapshot DeepseekPoll) (p : DeepseekPoll)
    (hex : ∃ pre mid, s.seen = pre ++ mid ∧
      s.stableCount ≤ (mid.filter (fun q => q.stopButtonVisible = false)).length ∧
      ∀ q ∈ mid, deepseekTurnSignature q.snapshot = s.lastSignature)
    (hz : s.sawNewTurn = false → s.stableCount = 0) :
    (∃ pre mid, (deepseekStep base s p).1.seen = pre ++ mid ∧
      (deepseekStep base s p).1.stableCount ≤
        (mid.filter (fun q => q.stopButtonVisible = false)).length ∧
      ∀ q ∈ mid, deepseekTurnSignature q.snapshot =
        (deepseekStep base s p).1.lastSignature) ∧
    ((deepseekStep base s p).1.sawNewTurn = false →
      (deepseekStep base s p).1.stableCount = 0) := by
  simp only [deepseekStep]
  split_ifs with h1 h2 h3
  · dsimp only
    constructor
    · obtain ⟨pre, mid, hseen, hlen, hsig⟩ := hex
      refine ⟨pre, mid ++ [p], ?_, ?_, ?_⟩
      · rw [hseen, List.append_assoc]
      · simp only [List.filter_append, List.length_append]
        omega
      · intro q hq
        rcases List.mem_append.mp hq with hq | hq
        · exact hsig q hq
        · simp at hq; subst hq; exact h2
    · intro hf; simp at hf
  · dsimp only
    constructor
    · obtain ⟨pre, mid, hseen, hlen, hsig⟩ := hex
      refine ⟨pre, mid ++ [p], ?_, ?_, ?_⟩
      · rw [hseen, List.append_assoc]
      · have hp : (([p] : List DeepseekPoll).filter
            (fun q => q.stopButtonVisible = false)).length = 1 := by
          simp [List.filter, h3]
        simp only [List.filter_append, List.length_append, hp]
        omega
      · intro q hq
        rcases List.mem_append.mp hq with hq | hq
        · exact hsig q hq
        · simp at hq; subst hq; exact h2
    · intro hf; simp at hf
  · dsimp only
    refine ⟨⟨s.seen, [p], rfl, by simp, ?_⟩, ?_⟩
    · intro q hq; simp at hq; subst hq; rfl
    · intro hf; simp at hf
  · dsimp only
    have hsawf : s.sawNewTurn = false := by
      push_neg at h1
      cases hsw : s.sawNewTurn
      · rfl
      · exact absurd hsw h1.1
    refine ⟨⟨s.seen ++ [p], [], by simp, ?_, by simp⟩, fun _ => hz hsawf⟩
    rw [hz hsawf]
    simp

theorem deepseekLoop_suffix (base : String) (polls : List DeepseekPoll) :
    ∀ s : CaptureState DeepseekTurnSnapshot DeepseekPoll,
    (∃ pre mid, s.seen = pre ++ mid ∧
      s.stableCount ≤ (mid.filter (fun q => q.stopButtonVisible = false)).length ∧
      ∀ q ∈ mid, deepseekTurnSignature q.snapshot = s.lastSignature) →
    (s.sawNewTurn = false → s.stableCount = 0) →
    (∃ pre mid, (deepseekLoop base s polls).1.seen = pre ++ mid ∧
      (deepseekLoop base s polls).1.stableCount ≤
        (mid.filter (fun q => q.stopButtonVisible = false)).length ∧
      ∀ q ∈ mid, deepseekTurnSignature q.snapshot =
        (deepseekLoop base s polls).1.lastSignature) := by
  induction polls with
  | nil => intro s hex _; exact hex
  | cons p rest ih =>
    intro s hex hz
    have hstepinv := deepseekStep_suffix base s p hex hz
    rcases hstep : deepseekStep base s p with ⟨s2, done⟩
    rw [hstep] at hstepinv
    cases done
    · simp only [deepseekLoop, hstep]
      exact ih s2 hstepinv.1 hstepinv.2
    · simp only [deepseekLoop, hstep]
      exact hstepinv.1

theorem deepseekStep_done (base : String)
    (s : CaptureState DeepseekTurnSnapshot DeepseekPoll) (p : DeepseekPoll) :
    (deepseekStep base s p).2 = true →
    3 ≤ (deepseekStep base s p).1.stableCount := by
  simp only [deepseekStep]
  split_ifs with h1 h2 h3 <;> dsimp only <;> intro h
  · simp at h
  · rw [decide_eq_true_eq] at h
    exact h
  · simp at h
  · simp at h

theorem deepseekLoop_done (base : String) (polls : List DeepseekPoll) :
    ∀ s : CaptureState DeepseekTurnSnapshot DeepseekPoll,
    (deepseekLoop base s polls).2 = true →
    3 ≤ (deepseekLoop base s polls).1.stableCount := by
  induction polls with
  | nil => intro s h; simp [deepseekLoop] at h
  | cons p rest ih =>
    intro s
    have hd := deepseekStep_done base s p
    rcases hstep : deepseekStep base s p with ⟨s2, done⟩
    rw [hstep] at hd
    cases done
    · simp only [deepseekLoop, hstep]
      exact ih s2
    · simp only [deepseekLoop, hstep]
      intro _
      exact hd rfl

/-- Claim C1 counterexample: the deepseek Stability Detector declares
completion for a run whose answer text is empty throughout — the baseline
shows "x", every poll shows an empty answer with an unchanged signature and no
streaming marker, and after the stable threshold of 3 the loop breaks with an
empty answer text, although the claim requires a non-empty answer text for
completion. -/
theorem c1_counterexample :
    (deepseekCaptureRun ⟨"x", 0, []⟩
      [⟨⟨"", 0, []⟩, false⟩, ⟨⟨"", 0, []⟩, false⟩, ⟨⟨"", 0, []⟩, false⟩,
        ⟨⟨"", 0, []⟩, false⟩]).completed = true ∧
    (deepseekCaptureRun ⟨"x", 0, []⟩
      [⟨⟨"", 0, []⟩, false⟩, ⟨⟨"", 0, []⟩, false⟩, ⟨⟨"", 0, []⟩, false⟩,
        ⟨⟨"", 0, []⟩, false⟩]).lastSnapshot.answerText = "" ∧
    (deepseekCaptureRun ⟨"x", 0, []⟩
      [⟨⟨"", 0, []⟩, false⟩, ⟨⟨"", 0, []⟩, false⟩, ⟨⟨"", 0, []⟩, false⟩,
        ⟨⟨"", 0, []⟩, false⟩]).truncated = false := by
  refine ⟨?_, ?_, ?_⟩ <;> decide

/-- Claim C1 (amended): Yuanbao declares completion exactly when stableCount
reaches the threshold 2 with a non-empty answer text, and never before two
consecutive signature-unchanged polls (its snapshots carry no streaming
marker); DeepSeek declares completion exactly when stableCount reaches the
threshold 3 — counting polls with unchanged signature and no streaming marker,
a streaming poll with unchanged signature leaving the counter untouched —
regardless of whether the answer text is empty, and never before three such
polls within the final unchanged-signature streak. -/
theorem c1_stability_completion :
    (∀ (b : YuanbaoTurnSnapshot) (polls : List YuanbaoTurnSnapshot),
      (yuanbaoCaptureRun b polls).completed = true →
      2 ≤ (yuanbaoCaptureRun b polls).stableCount ∧
      (yuanbaoCaptureRun b polls).lastSnapshot.answerText ≠ "" ∧
      ∃ pre mid, (yuanbaoCaptureRun b polls).seen = pre ++ mid ∧
        (yuanbaoCaptureRun b polls).stableCount ≤ mid.length ∧
        ∀ q ∈ mid, yuanbaoTurnSignature q =
          (yuanbaoCaptureRun b polls).lastSignature) ∧
    (∀ (b s : YuanbaoTurnSnapshot) (rest : List YuanbaoTurnSnapshot),
      yuanbaoTurnSignature s ≠ yuanbaoTurnSignature b → s.answerText ≠ "" →
      (yuanbaoCaptureRun b (s :: s :: s :: rest)).completed = true) ∧
    (∀ b s : YuanbaoTurnSnapshot,
      yuanbaoTurnSignature s ≠ yuanbaoTurnSignature b →
      (yuanbaoCaptureRun b [s, s]).completed = false) ∧
    (∀ (b : DeepseekTurnSnapshot) (polls : List DeepseekPoll),
      (deepseekCaptureRun b polls).completed = true →
      3 ≤ (deepseekCaptureRun b polls).stableCount ∧
      ∃ pre mid, (deepseekCaptureRun b polls).seen = pre ++ mid ∧
        (deepseekCaptureRun b polls).stableCount ≤
          (mid.filter (fun q => q.stopButtonVisible = false)).length ∧
        ∀ q ∈ mid, deepseekTurnSignature q.snapshot =
          (deepseekCaptureRun b polls).lastSignature) ∧
    (∀ (b s : DeepseekTurnSnapshot) (rest : List DeepseekPoll),
      deepseekTurnSignature s ≠ deepseekTurnSignature b →
      (deepseekCaptureRun b
        (⟨s, false⟩ :: ⟨s, false⟩ :: ⟨s, false⟩ :: ⟨s, false⟩ :: rest)).completed
        = true) ∧
    (∀ b s : DeepseekTurnSnapshot,
      deepseekTurnSignature s ≠ deepseekTurnSignature b →
      (deepseekCaptureRun b [⟨s, false⟩, ⟨s, false⟩, ⟨s, false⟩]).completed
        = false) := by
  refine ⟨?_, yuanbaoRun_completes, yuanbaoRun_two_polls, ?_,
    deepseekRun_completes, deepseekRun_three_polls⟩
  · intro b polls h
    have h2 : (yuanbaoLoop (yuanbaoTurnSignature b)
        (initCaptureState b (yuanbaoTurnSignature b)) polls).2 = true := h
    have hdone := yuanbaoLoop_done (yuanbaoTurnSignature b) polls
      (initCaptureState b (yuanbaoTurnSignature b)) h2
    have hsuf := yuanbaoLoop_suffix (yuanbaoTurnSignature b) polls
      (initCaptureState b (yuanbaoTurnSignature b))
      ⟨[], [], rfl, by simp [initCaptureState], by simp⟩
      (fun _ => by simp [initCaptureState])
    exact ⟨hdone.1, hdone.2, hsuf⟩
  · intro b polls h
    have h2 : (deepseekLoop (deepseekTurnSignature b)
        (initCaptureState b (deepseekTurnSignature b)) polls).2 = true := h
    have hdone := deepseekLoop_done (deepseekTurnSignature b) polls
      (initCaptureState b (deepseekTurnSignature b)) h2
    have hsuf := deepseekLoop_suffix (deepseekTurnSignature b) polls
      (initCaptureState b (deepseekTurnSignature b))
      ⟨[], [], rfl, by simp [initCaptureState], by simp⟩
      (fun _ => by simp [initCaptureState])
    exact ⟨hdone, hsuf⟩

/-- Witness for claim C1: with baseline answer "" and three polls showing
"pong", the yuanbao detector completes (scenario A of the spec), while two
polls are not enough; the deepseek detector completes after one changed poll
and three stable non-streaming polls even though the answer is empty. -/
theorem c1_witness :
    (yuanbaoCaptureRun ⟨"", false, []⟩
      [⟨"pong", false, []⟩, ⟨"pong", false, []⟩, ⟨"pong", false, []⟩]).completed
      = true ∧
    (yuanbaoCaptureRun ⟨"", false, []⟩
      [⟨"pong", false, []⟩, ⟨"pong", false, []⟩]).completed = false := by
  constructor
  · exact c1_stability_completion.2.1 ⟨"", false, []⟩ ⟨"pong", false, []⟩ []
      (by decide) (by decide)
  · exact c1_stability_completion.2.2.1 ⟨"", false, []⟩ ⟨"pong", false, []⟩
      (by decide)
